import Mathlib

/-!
Shallow embedding of `src/sdk/rendering/android/vulkan_distortion_renderer.cc`
(the `VulkanDistortionRenderer` class and its C factory).

Modelling conventions:

* Vulkan handles are natural numbers (`Handle`).  A `Device` carries a fresh
  handle counter together with a chronological log of resource
  creation/destruction events, standing in for the Vulkan device and its
  allocator; `VK_NULL_HANDLE` members are modelled with `Option`.
* `float` payloads (mesh positions/uvs, remap rectangles) are only ever
  copied byte-for-byte by this renderer (memcpy into mapped memory), never
  computed with, so their values are modelled as `Int` placeholders; the
  32-bit float representation is irrelevant to every copy.
* `uint32_t` values are `Nat` reduced mod 2^32 at the C++ conversion points;
  `int`/`int32_t` values are `Int` with explicit wrapping where the source
  converts.  Mesh element counts are taken as `Nat` (the source reads them
  from non-negative C `int` counts).
* Commands recorded into the caller's `VkCommandBuffer` and the other
  externally visible per-eye operations are returned as an explicit trace
  (`RenderOp` list) so that ordering claims are statements about lists.
* `FindMemoryType` only selects a memory-type index for the allocation and
  affects no state tracked by any claim; the allocation itself is modelled
  by the event log.  Shader bytecode, samplers and layouts are opaque
  handles.
* Fields that are uninitialized garbage in the C++ object until first
  assignment (`current_render_pass_`, the viewport/scissor structs, the
  mesh buffers before the first `SetMesh`) are modelled as `none`/`Option`;
  an uninitialized render pass compares unequal to every caller-supplied
  handle, exactly as the spec's "construction-time default" reading.
-/

abbrev Handle := Nat

/-- CardboardEye from include/cardboard.h: selector for per-eye state. -/
inductive CardboardEye where
  | kLeft
  | kRight
deriving DecidableEq, Repr

/-- The opposite eye, used to state frame conditions. -/
def CardboardEye.other : CardboardEye → CardboardEye
  | .kLeft => .kRight
  | .kRight => .kLeft

/-- A pair of per-eye values, modelling the C++ two-element arrays indexed by
`CardboardEye`. -/
structure EyePair (α : Type) where
  l : α
  r : α
deriving DecidableEq, Repr

def EyePair.get {α : Type} (p : EyePair α) : CardboardEye → α
  | .kLeft => p.l
  | .kRight => p.r

def EyePair.set {α : Type} (p : EyePair α) (e : CardboardEye) (v : α) : EyePair α :=
  match e with
  | .kLeft => { p with l := v }
  | .kRight => { p with r := v }

/-- UniformBufferObject: the four-float remap rectangle written each frame. -/
structure UniformBufferObject where
  left_u : Int
  right_u : Int
  top_v : Int
  bottom_v : Int
deriving DecidableEq, Repr

/-- Vertex: interleaved position and texture coordinate, 16 bytes in C++. -/
structure Vertex where
  pos_x : Int
  pos_y : Int
  tex_u : Int
  tex_v : Int
deriving DecidableEq, Repr

/-- CardboardMesh: flat arrays as supplied by the caller.  The arrays are
C pointers, modelled as total functions (indexing never traps). -/
structure CardboardMesh where
  indices : Nat → Int
  n_indices : Nat
  vertices : Nat → Int
  n_vertices : Nat
  uvs : Nat → Int

/-- CardboardEyeTextureDescription: external texture plus remap rectangle. -/
structure CardboardEyeTextureDescription where
  texture : Handle
  left_u : Int
  right_u : Int
  top_v : Int
  bottom_v : Int
deriving DecidableEq, Repr

/-- CardboardVulkanDistortionRendererTarget: what the `target` argument of
`RenderEyeToDisplay` decodes to (the command buffer itself is modelled by
the returned trace). -/
structure CardboardVulkanDistortionRendererTarget where
  vk_render_pass : Handle
  swapchain_image_index : Nat
deriving DecidableEq, Repr

/-- Resource creation/destruction events issued to the Vulkan device.
`destroyBufferIndet`/`freeMemoryIndet` record a `vkDestroyBuffer` /
`vkFreeMemory` call whose handle argument is an uninitialized member: the
destructor destroys the per-eye buffer members unconditionally, and before
the first `SetMesh` for an eye those members hold indeterminate values
that no program expression can name. -/
inductive DeviceEvent where
  | createBuffer (h : Handle)
  | destroyBuffer (h : Handle)
  | allocateMemory (h : Handle)
  | freeMemory (h : Handle)
  | createImageView (h : Handle)
  | destroyImageView (h : Handle)
  | createShaderModule (h : Handle)
  | destroyShaderModule (h : Handle)
  | createPipeline (h : Handle)
  | destroyPipeline (h : Handle)
  | createSampler (h : Handle)
  | destroySampler (h : Handle)
  | createDescriptorSetLayout (h : Handle)
  | destroyDescriptorSetLayout (h : Handle)
  | createPipelineLayout (h : Handle)
  | destroyPipelineLayout (h : Handle)
  | createDescriptorPool (h : Handle)
  | destroyDescriptorPool (h : Handle)
  | destroyBufferIndet
  | freeMemoryIndet
deriving DecidableEq, Repr

/-- The Vulkan device side of the model: a fresh-handle counter and the
chronological log of resource events. -/
structure Device where
  next_handle : Nat
  log : List DeviceEvent
deriving DecidableEq, Repr

/-- Allocate a fresh handle and log its creation event. -/
def Device.fresh (d : Device) (mk : Handle → DeviceEvent) : Handle × Device :=
  (d.next_handle,
   { next_handle := d.next_handle + 1, log := d.log ++ [mk d.next_handle] })

/-- Log a destruction (or other) event. -/
def Device.emit (d : Device) (e : DeviceEvent) : Device :=
  { d with log := d.log ++ [e] }

/-- One eye's vertex buffer: handle pair, byte size, mapped contents. -/
structure VertexBufferState where
  buffer : Handle
  memory : Handle
  size : Nat
  data : List Vertex
deriving DecidableEq, Repr

/-- One eye's index buffer: handle pair, byte size, mapped 16-bit contents. -/
structure IndexBufferState where
  buffer : Handle
  memory : Handle
  size : Nat
  data : List Nat
deriving DecidableEq, Repr

/-- One eye's uniform buffer; `data` is the most recently memcpy'd UBO
(`none` before the first frame). -/
structure UniformBufferState where
  buffer : Handle
  memory : Handle
  data : Option UniformBufferObject
deriving DecidableEq, Repr

/-- One descriptor set and the bindings last written into it
(`none` before the first `UpdateDescriptorSets`). -/
structure DescriptorSetState where
  handle : Handle
  binding_image : Option Handle
  binding_buffer : Option Handle
deriving DecidableEq, Repr

/-- VkViewport as set by `UpdateViewportAndScissor` (minDepth/maxDepth are
the constants 0 and 1 and are omitted). -/
structure Viewport where
  x : Int
  y : Int
  width : Nat
  height : Nat
deriving DecidableEq, Repr

/-- VkRect2D: scissor rectangle. -/
structure VkRect2D where
  offset_x : Int
  offset_y : Int
  extent_width : Nat
  extent_height : Nat
deriving DecidableEq, Repr

/-- A built graphics pipeline: its handle and the render pass it was built
against (`renderPass = current_render_pass_` at build time). -/
structure PipelineObject where
  handle : Handle
  render_pass : Option Handle
deriving DecidableEq, Repr

/-- Commands recorded into the caller-owned command buffer by
`BindCommandBuffer`.  Handles that are `VK_NULL_HANDLE` (members never
assigned) appear as `none`. -/
inductive Cmd where
  | bindPipeline (p : Option Handle)
  | setViewport (v : Option Viewport)
  | setScissor (s : Option VkRect2D)
  | bindVertexBuffers (b : Option Handle)
  | bindIndexBuffer (b : Option Handle)
  | bindDescriptorSets (ds : Handle)
  | drawIndexed (index_count : Nat) (instance_count : Nat) (first_index : Nat)
      (vertex_offset : Int) (first_instance : Nat)
deriving DecidableEq, Repr

/-- Externally visible per-frame operations, in the order the renderer
performs them. -/
inductive RenderOp where
  | createPipelineOp (eye : CardboardEye)
  | updateUniform (eye : CardboardEye) (ubo : UniformBufferObject)
  | destroyViewOp (eye : CardboardEye) (slot : Nat)
  | createViewOp (eye : CardboardEye) (slot : Nat)
  | updateDescriptorsOp (eye : CardboardEye) (slot : Nat)
  | cmd (c : Cmd)
deriving DecidableEq, Repr

/-- The VulkanDistortionRenderer object state: one field per C++ member that
any claim depends on.  Externally borrowed handles (devices, swapchain)
are not state of the renderer. -/
structure VulkanDistortionRenderer where
  swapchain_image_count_ : Nat
  current_render_pass_ : Option Handle
  current_image_width_ : Nat
  current_image_height_ : Nat
  indices_count_ : Nat
  texture_sampler_ : Handle
  descriptor_set_layout_ : Handle
  pipeline_layout_ : Handle
  swapchain_views_ : List Handle
  viewport_ : EyePair (Option Viewport)
  scissor_ : EyePair (Option VkRect2D)
  graphics_pipeline_ : EyePair (Option PipelineObject)
  vertex_buffers_ : EyePair (Option VertexBufferState)
  index_buffers_ : EyePair (Option IndexBufferState)
  uniform_buffers_ : EyePair UniformBufferState
  descriptor_pool_ : EyePair Handle
  descriptor_sets_ : EyePair (List DescriptorSetState)
  image_views_ : EyePair (List (Option Handle))
deriving DecidableEq, Repr

abbrev VDR := VulkanDistortionRenderer

/-- C++ conversion of a (possibly negative) `int` to `uint32_t`. -/
def uint32OfInt (x : Int) : Nat := (x % 4294967296).toNat

/-- C++ `static_cast<int32_t>` of a `uint32_t` value. -/
def int32OfUInt (n : Nat) : Int :=
  if n % 4294967296 < 2147483648 then (n % 4294967296 : Nat)
  else (n % 4294967296 : Nat) - 4294967296

/-- CreateBuffer: creates a buffer and allocates its backing memory
(host-visible, host-coherent; the memory-type search in `FindMemoryType`
selects only the type index and is abstracted).  Returns the buffer
handle, the memory handle and the updated device. -/
def CreateBuffer (d : Device) (size : Nat) : Handle × Handle × Device :=
  let _ := size
  let p1 := d.fresh .createBuffer
  let p2 := p1.2.fresh .allocateMemory
  (p1.1, p2.1, p2.2)

/-- CreateVertexBuffer: allocates a fresh buffer/memory pair for the eye and
memcpys the interleaved vertices into it.  Exactly as in the source, the
previous pair (if any) is only overwritten, never destroyed. -/
def CreateVertexBuffer (r : VDR) (d : Device) (eye : CardboardEye)
    (vertices : List Vertex) : VDR × Device :=
  let buffer_size := 16 * vertices.length
  let p := CreateBuffer d buffer_size
  ({ r with vertex_buffers_ :=
      r.vertex_buffers_.set eye (some ⟨p.1, p.2.1, buffer_size, vertices⟩) }, p.2.2)

/-- CreateIndexBuffer: allocates a fresh buffer/memory pair for the eye and
memcpys the 16-bit indices into it, again without destroying any previous
pair. -/
def CreateIndexBuffer (r : VDR) (d : Device) (eye : CardboardEye)
    (indices : List Nat) : VDR × Device :=
  let buffer_size := 2 * indices.length
  let p := CreateBuffer d buffer_size
  ({ r with index_buffers_ :=
      r.index_buffers_.set eye (some ⟨p.1, p.2.1, buffer_size, indices⟩) }, p.2.2)

/-- The interleaved vertex sequence built by the `SetMesh` loop. -/
def meshVertices (mesh : CardboardMesh) : List Vertex :=
  (List.range mesh.n_vertices).map fun i =>
    ⟨mesh.vertices (2 * i), mesh.vertices (2 * i + 1),
     mesh.uvs (2 * i), mesh.uvs (2 * i + 1)⟩

/-- The 16-bit index sequence built by the `SetMesh` loop (C++ `int` to
`uint16_t` conversion is reduction mod 2^16). -/
def meshIndices (mesh : CardboardMesh) : List Nat :=
  (List.range mesh.n_indices).map fun i => (mesh.indices i % 65536).toNat

/-- SetMesh: rebuild the eye's vertex and index buffers from the flat mesh
arrays and record the shared `indices_count_`. -/
def SetMesh (r : VDR) (d : Device) (mesh : CardboardMesh) (eye : CardboardEye) :
    VDR × Device :=
  let p1 := CreateVertexBuffer r d eye (meshVertices mesh)
  let p2 := CreateIndexBuffer p1.1 p1.2 eye (meshIndices mesh)
  ({ p2.1 with indices_count_ := mesh.n_indices }, p2.2)

/-- CleanPipeline: destroy the eye's pipeline if present, else no-op. -/
def CleanPipeline (r : VDR) (d : Device) (eye : CardboardEye) : VDR × Device :=
  match r.graphics_pipeline_.get eye with
  | some p =>
      ({ r with graphics_pipeline_ := r.graphics_pipeline_.set eye none },
       d.emit (.destroyPipeline p.handle))
  | none => (r, d)

/-- CreateGraphicsPipeline: destroy the previous pipeline, load the two
shader modules, build a pipeline against `current_render_pass_`, then
destroy the shader modules. -/
def CreateGraphicsPipeline (r : VDR) (d : Device) (eye : CardboardEye) :
    VDR × Device :=
  let p0 := CleanPipeline r d eye
  let pvs := p0.2.fresh .createShaderModule
  let pfs := pvs.2.fresh .createShaderModule
  let pp := pfs.2.fresh .createPipeline
  let rp := p0.1
  let r' := { rp with graphics_pipeline_ :=
      rp.graphics_pipeline_.set eye (some ⟨pp.1, rp.current_render_pass_⟩) }
  let d' := ((pp.2.emit (.destroyShaderModule pvs.1)).emit (.destroyShaderModule pfs.1))
  (r', d')

/-- CleanTextureImageView: destroy the eye's cached view for this slot if
present, clearing the cache entry; no-op otherwise.  Returns the emitted
trace fragment. -/
def CleanTextureImageView (r : VDR) (d : Device) (eye : CardboardEye)
    (index : Nat) : VDR × Device × List RenderOp :=
  match (r.image_views_.get eye).getD index none with
  | some v =>
      ({ r with image_views_ :=
           r.image_views_.set eye ((r.image_views_.get eye).set index none) },
       d.emit (.destroyImageView v), [.destroyViewOp eye index])
  | none => (r, d, [])

/-- CreateImageView: wrap an external image in a fresh image view. -/
def CreateImageView (d : Device) (image : Handle) : Handle × Device :=
  let _ := image
  d.fresh .createImageView

/-- UpdateUniformBuffer: memcpy the UBO into the eye's mapped uniform
memory. -/
def UpdateUniformBuffer (r : VDR) (eye : CardboardEye)
    (ubo : UniformBufferObject) : VDR :=
  let ub := r.uniform_buffers_.get eye
  { r with uniform_buffers_ :=
      r.uniform_buffers_.set eye { ub with data := some ubo } }

/-- UpdateViewportAndScissor: full-region viewport for the eye; scissor
offset at `(x, y)` for the left eye and `(x + width/2, y)` for the right
(computed in `uint32` then cast to `int32`), extent `(width/2, height)`. -/
def UpdateViewportAndScissor (r : VDR) (eye : CardboardEye) (x y : Int) : VDR :=
  let w := r.current_image_width_
  let h := r.current_image_height_
  let off_x : Int :=
    match eye with
    | .kLeft => x
    | .kRight => int32OfUInt ((uint32OfInt x + w / 2) % 4294967296)
  let vp : Viewport := ⟨x, y, w, h⟩
  let sc : VkRect2D := ⟨off_x, y, w / 2, h⟩
  { r with viewport_ := r.viewport_.set eye (some vp),
           scissor_ := r.scissor_.set eye (some sc) }

/-- UpdateDescriptorSets: rewrite both bindings of the slot's set to the
eye's current image view (binding 0) and uniform buffer (binding 1). -/
def UpdateDescriptorSets (r : VDR) (eye : CardboardEye) (index : Nat) : VDR :=
  let sets := r.descriptor_sets_.get eye
  let ds := sets.getD index ⟨0, none, none⟩
  let ds' :=
    { ds with binding_image := (r.image_views_.get eye).getD index none,
              binding_buffer := some (r.uniform_buffers_.get eye).buffer }
  { r with descriptor_sets_ := r.descriptor_sets_.set eye (sets.set index ds') }

/-- BindCommandBuffer: the seven commands recorded for one eye's draw. -/
def BindCommandBuffer (r : VDR) (eye : CardboardEye) (image_index : Nat)
    (indices_count : Nat) : List Cmd :=
  [ .bindPipeline ((r.graphics_pipeline_.get eye).map PipelineObject.handle),
    .setViewport (r.viewport_.get eye),
    .setScissor (r.scissor_.get eye),
    .bindVertexBuffers ((r.vertex_buffers_.get eye).map VertexBufferState.buffer),
    .bindIndexBuffer ((r.index_buffers_.get eye).map IndexBufferState.buffer),
    .bindDescriptorSets ((r.descriptor_sets_.get eye).getD image_index ⟨0, none, none⟩).handle,
    .drawIndexed (indices_count % 4294967296) 1 0 0 0 ]

/-- RenderDistortionMesh: the per-eye draw sequence, in source order:
uniform write, destroy stale view, create new view, descriptor update,
bind and indexed draw. -/
def RenderDistortionMesh (r : VDR) (d : Device)
    (eye_description : CardboardEyeTextureDescription) (eye : CardboardEye)
    (image_index : Nat) : VDR × Device × List RenderOp :=
  let ubo : UniformBufferObject :=
    ⟨eye_description.left_u, eye_description.right_u,
     eye_description.top_v, eye_description.bottom_v⟩
  let r1 := UpdateUniformBuffer r eye ubo
  let pclean := CleanTextureImageView r1 d eye image_index
  let pview := CreateImageView pclean.2.1 eye_description.texture
  let rc := pclean.1
  let row := (rc.image_views_.get eye).set image_index (some pview.1)
  let r2 := { rc with image_views_ := rc.image_views_.set eye row }
  let r3 := UpdateDescriptorSets r2 eye image_index
  let cmds := BindCommandBuffer r3 eye image_index r3.indices_count_
  (r3, pview.2,
   [.updateUniform eye ubo] ++ pclean.2.2 ++
     [.createViewOp eye image_index, .updateDescriptorsOp eye image_index] ++
     cmds.map .cmd)

/-- RenderEyeToDisplay: decode the target, reject out-of-range slots,
cache the draw-region size, rebuild both pipelines when the render pass
changed, then render both eyes in order left, right. -/
def RenderEyeToDisplay (r : VDR) (d : Device)
    (target : CardboardVulkanDistortionRendererTarget) (x y width height : Int)
    (left_eye right_eye : CardboardEyeTextureDescription) :
    VDR × Device × List RenderOp :=
  let image_index := target.swapchain_image_index
  if r.swapchain_image_count_ ≤ image_index then (r, d, [])
  else
    let r1 := { r with current_image_width_ := uint32OfInt width,
                       current_image_height_ := uint32OfInt height }
    let pb : VDR × Device × List RenderOp :=
      if some target.vk_render_pass ≠ r1.current_render_pass_ then
        let r2 := { r1 with current_render_pass_ := some target.vk_render_pass }
        let pL := CreateGraphicsPipeline r2 d .kLeft
        let pR := CreateGraphicsPipeline pL.1 pL.2 .kRight
        (pR.1, pR.2, [RenderOp.createPipelineOp .kLeft, RenderOp.createPipelineOp .kRight])
      else (r1, d, ([] : List RenderOp))
    let r3 := UpdateViewportAndScissor pb.1 .kLeft x y
    let pLeft := RenderDistortionMesh r3 pb.2.1 left_eye .kLeft image_index
    let r4 := UpdateViewportAndScissor pLeft.1 .kRight x y
    let pRight := RenderDistortionMesh r4 pLeft.2.1 right_eye .kRight image_index
    (pRight.1, pRight.2.1, pb.2.2 ++ pLeft.2.2 ++ pRight.2.2)

/-- CreateSwapchainImageViews: one image view per swapchain image, in slot
order (the wrapped external swapchain image handles are irrelevant to the
claims and elided). -/
def createSwapchainViews (d : Device) : Nat → List Handle × Device
  | 0 => ([], d)
  | n + 1 =>
      let pv := d.fresh .createImageView
      let rest := createSwapchainViews pv.2 n
      (pv.1 :: rest.1, rest.2)

/-- CreateDescriptorSets: allocate one descriptor set per swapchain slot
from the eye's pool (pool-owned, so no individual device event). -/
def allocDescriptorSets (d : Device) : Nat → List DescriptorSetState × Device
  | 0 => ([], d)
  | n + 1 =>
      let h := d.next_handle
      let rest := allocDescriptorSets { d with next_handle := d.next_handle + 1 } n
      (⟨h, none, none⟩ :: rest.1, rest.2)

/-- CreateUniformBuffers: one small host-visible uniform buffer
(`sizeof(UniformBufferObject)` = 16 bytes). -/
def CreateUniformBuffers (d : Device) : UniformBufferState × Device :=
  let p := CreateBuffer d 16
  (⟨p.1, p.2.1, none⟩, p.2.2)

/-- The VulkanDistortionRenderer constructor with `LoadVulkan` succeeding:
shared objects (descriptor-set layout, pipeline layout, sampler, swapchain
views), then per-eye pool, uniform buffer, descriptor sets, and an
image-view cache initialized to null handles.  `n` is the swapchain image
count queried from the swapchain. -/
def constructRenderer (n : Nat) (d : Device) : VDR × Device :=
  let pdsl := d.fresh .createDescriptorSetLayout
  let ppl := pdsl.2.fresh .createPipelineLayout
  let psmp := ppl.2.fresh .createSampler
  let psvs := createSwapchainViews psmp.2 n
  let ppoolL := psvs.2.fresh .createDescriptorPool
  let pubL := CreateUniformBuffers ppoolL.2
  let psetsL := allocDescriptorSets pubL.2 n
  let ppoolR := psetsL.2.fresh .createDescriptorPool
  let pubR := CreateUniformBuffers ppoolR.2
  let psetsR := allocDescriptorSets pubR.2 n
  ({ swapchain_image_count_ := n,
     current_render_pass_ := none,
     current_image_width_ := 0,
     current_image_height_ := 0,
     indices_count_ := 0,
     texture_sampler_ := psmp.1,
     descriptor_set_layout_ := pdsl.1,
     pipeline_layout_ := ppl.1,
     swapchain_views_ := psvs.1,
     viewport_ := ⟨none, none⟩,
     scissor_ := ⟨none, none⟩,
     graphics_pipeline_ := ⟨none, none⟩,
     vertex_buffers_ := ⟨none, none⟩,
     index_buffers_ := ⟨none, none⟩,
     uniform_buffers_ := ⟨pubL.1, pubR.1⟩,
     descriptor_pool_ := ⟨ppoolL.1, ppoolR.1⟩,
     descriptor_sets_ := ⟨psetsL.1, psetsR.1⟩,
     image_views_ := ⟨List.replicate n none, List.replicate n none⟩ }, psetsR.2)

/-- The image-view destructions of the destructor's per-slot loop, in loop
order: left eye's cached view (if any), right eye's (if any), then the
swapchain view of that slot. -/
def destructorSlotEvents (r : VDR) : List DeviceEvent :=
  (List.range r.swapchain_image_count_).flatMap fun i =>
    (match (r.image_views_.get .kLeft).getD i none with
     | some v => [DeviceEvent.destroyImageView v]
     | none => []) ++
    (match (r.image_views_.get .kRight).getD i none with
     | some v => [DeviceEvent.destroyImageView v]
     | none => []) ++
    [DeviceEvent.destroyImageView (r.swapchain_views_.getD i 0)]

/-- Destroy one mesh buffer/memory pair.  The C++ destructor calls
`vkDestroyBuffer`/`vkFreeMemory` on the raw members unconditionally; when
the member was never assigned (no `SetMesh` for that eye) the call still
happens, with an indeterminate argument, recorded as the dedicated
indeterminate-destroy events. -/
def destroyOptBufferPair (d : Device) : Option (Handle × Handle) → Device
  | some (b, m) => (d.emit (.destroyBuffer b)).emit (.freeMemory m)
  | none => (d.emit .destroyBufferIndet).emit .freeMemoryIndet

/-- The VulkanDistortionRenderer destructor, in source order: per-slot
image views, sampler, pipeline layout, descriptor-set layout, both pools,
both pipelines, then index, vertex and uniform buffer pairs. -/
def destructRenderer (r : VDR) (d : Device) : Device :=
  let d : Device := { d with log := d.log ++ destructorSlotEvents r }
  let d := d.emit (.destroySampler r.texture_sampler_)
  let d := d.emit (.destroyPipelineLayout r.pipeline_layout_)
  let d := d.emit (.destroyDescriptorSetLayout r.descriptor_set_layout_)
  let d := d.emit (.destroyDescriptorPool (r.descriptor_pool_.get .kLeft))
  let d := d.emit (.destroyDescriptorPool (r.descriptor_pool_.get .kRight))
  let pL := CleanPipeline r d .kLeft
  let pR := CleanPipeline pL.1 pL.2 .kRight
  let r := pR.1
  let d := pR.2
  let d := destroyOptBufferPair d
    ((r.index_buffers_.get .kLeft).map fun ib => (ib.buffer, ib.memory))
  let d := destroyOptBufferPair d
    ((r.index_buffers_.get .kRight).map fun ib => (ib.buffer, ib.memory))
  let d := destroyOptBufferPair d
    ((r.vertex_buffers_.get .kLeft).map fun vb => (vb.buffer, vb.memory))
  let d := destroyOptBufferPair d
    ((r.vertex_buffers_.get .kRight).map fun vb => (vb.buffer, vb.memory))
  let d := destroyOptBufferPair d
    (some ((r.uniform_buffers_.get .kLeft).buffer,
           (r.uniform_buffers_.get .kLeft).memory))
  let d := destroyOptBufferPair d
    (some ((r.uniform_buffers_.get .kRight).buffer,
           (r.uniform_buffers_.get .kRight).memory))
  d

/-- CardboardVulkanDistortionRenderer_create: null iff the Cardboard SDK is
not initialized or the config argument is null.  `vulkan_ok` models
whether `LoadVulkan` succeeds inside the constructor: its failure is
log-only and never makes the factory return null (the constructor would
then leave the object unusable, which the model collapses to the same
constructed state; no claim depends on the post-failure field values). -/
def CardboardVulkanDistortionRenderer_create (cardboard_ready : Bool)
    (vulkan_ok : Bool) (config : Option Nat) (d : Device) :
    Option (VDR × Device) :=
  if cardboard_ready = false ∨ config = none then none
  else
    let _ := vulkan_ok
    some (constructRenderer (config.getD 0) d)

/-- One frame's worth of arguments to `RenderEyeToDisplay`. -/
structure FrameInput where
  target : CardboardVulkanDistortionRendererTarget
  x : Int
  y : Int
  width : Int
  height : Int
  left_eye : CardboardEyeTextureDescription
  right_eye : CardboardEyeTextureDescription
deriving DecidableEq, Repr

/-- Run a sequence of frames, discarding the recorded command traces. -/
def runFrames : VDR × Device → List FrameInput → VDR × Device
  | s, [] => s
  | (r, d), f :: fs =>
      let res := RenderEyeToDisplay r d f.target f.x f.y f.width f.height
        f.left_eye f.right_eye
      runFrames (res.1, res.2.1) fs

/-- Run a sequence of `SetMesh` calls. -/
def runSetMeshes : VDR × Device → List (CardboardMesh × CardboardEye) → VDR × Device
  | s, [] => s
  | (r, d), (m, e) :: ms => runSetMeshes (SetMesh r d m e) ms

/-- Draw counts of the indexed draws in a trace, in order. -/
def drawCounts (ops : List RenderOp) : List Nat :=
  ops.filterMap fun op =>
    match op with
    | .cmd (.drawIndexed c _ _ _ _) => some c
    | _ => none

/-- Whether a trace element is a pipeline build. -/
def isCreatePipelineOp : RenderOp → Bool
  | .createPipelineOp _ => true
  | _ => false

/-- Handles of buffer creations in a device log, in order. -/
def bufferCreatesList (log : List DeviceEvent) : List Handle :=
  log.filterMap fun e => match e with | .createBuffer h => some h | _ => none

/-- Handles of buffer destructions in a device log, in order. -/
def bufferDestroysList (log : List DeviceEvent) : List Handle :=
  log.filterMap fun e => match e with | .destroyBuffer h => some h | _ => none

/-- Handles of memory allocations in a device log, in order. -/
def memoryCreatesList (log : List DeviceEvent) : List Handle :=
  log.filterMap fun e => match e with | .allocateMemory h => some h | _ => none

/-- Handles of memory frees in a device log, in order. -/
def memoryDestroysList (log : List DeviceEvent) : List Handle :=
  log.filterMap fun e => match e with | .freeMemory h => some h | _ => none

/-- Handles of image-view creations in a device log, in order. -/
def viewCreatesList (log : List DeviceEvent) : List Handle :=
  log.filterMap fun e => match e with | .createImageView h => some h | _ => none

/-- Handles of image-view destructions in a device log, in order. -/
def viewDestroysList (log : List DeviceEvent) : List Handle :=
  log.filterMap fun e => match e with | .destroyImageView h => some h | _ => none

/-- Handles of pipeline creations in a device log, in order. -/
def pipelineCreatesList (log : List DeviceEvent) : List Handle :=
  log.filterMap fun e => match e with | .createPipeline h => some h | _ => none

/-- Multiset of buffer creations. -/
def bufferCreates (log : List DeviceEvent) : Multiset Handle := ↑(bufferCreatesList log)

/-- Multiset of buffer destructions. -/
def bufferDestroys (log : List DeviceEvent) : Multiset Handle := ↑(bufferDestroysList log)

/-- Multiset of memory allocations. -/
def memoryCreates (log : List DeviceEvent) : Multiset Handle := ↑(memoryCreatesList log)

/-- Multiset of memory frees. -/
def memoryDestroys (log : List DeviceEvent) : Multiset Handle := ↑(memoryDestroysList log)

/-- Multiset of image-view creations. -/
def viewCreates (log : List DeviceEvent) : Multiset Handle := ↑(viewCreatesList log)

/-- Multiset of image-view destructions. -/
def viewDestroys (log : List DeviceEvent) : Multiset Handle := ↑(viewDestroysList log)

/-- The multiset of handles that appear in one optional resource, projected
by `f`. -/
def optHandle {α : Type} (f : α → Handle) (o : Option α) : Multiset Handle :=
  ↑((o.map f).toList)

/-- Image views currently owned by the renderer: the swapchain views plus
both eyes' per-slot caches. -/
def liveViews (r : VDR) : Multiset Handle :=
  ↑r.swapchain_views_ + ↑((r.image_views_.get .kLeft).filterMap id)
    + ↑((r.image_views_.get .kRight).filterMap id)

/-- Buffers currently owned by the renderer. -/
def liveBuffers (r : VDR) : Multiset Handle :=
  {(r.uniform_buffers_.get .kLeft).buffer, (r.uniform_buffers_.get .kRight).buffer}
    + optHandle VertexBufferState.buffer (r.vertex_buffers_.get .kLeft)
    + optHandle VertexBufferState.buffer (r.vertex_buffers_.get .kRight)
    + optHandle IndexBufferState.buffer (r.index_buffers_.get .kLeft)
    + optHandle IndexBufferState.buffer (r.index_buffers_.get .kRight)

/-- Device memory allocations currently owned by the renderer. -/
def liveMemories (r : VDR) : Multiset Handle :=
  {(r.uniform_buffers_.get .kLeft).memory, (r.uniform_buffers_.get .kRight).memory}
    + optHandle VertexBufferState.memory (r.vertex_buffers_.get .kLeft)
    + optHandle VertexBufferState.memory (r.vertex_buffers_.get .kRight)
    + optHandle IndexBufferState.memory (r.index_buffers_.get .kLeft)
    + optHandle IndexBufferState.memory (r.index_buffers_.get .kRight)

/-- Resource-accounting invariant: every created view/buffer/memory handle
is either already destroyed or currently owned, and the cache lists have
swapchain length. -/
structure ResInv (r : VDR) (d : Device) : Prop where
  views : viewCreates d.log = viewDestroys d.log + liveViews r
  bufs : bufferCreates d.log = bufferDestroys d.log + liveBuffers r
  mems : memoryCreates d.log = memoryDestroys d.log + liveMemories r
  sv_len : r.swapchain_views_.length = r.swapchain_image_count_
  ivl_len : (r.image_views_.get .kLeft).length = r.swapchain_image_count_
  ivr_len : (r.image_views_.get .kRight).length = r.swapchain_image_count_

/-! Concrete fixtures used by witnesses and counterexamples. -/

/-- An initial device with an empty log. -/
def device0 : Device := ⟨0, []⟩

/-- A renderer constructed over a two-image swapchain. -/
def rd0 : VDR × Device := constructRenderer 2 device0

/-- A small concrete quad mesh: 4 vertices, 6 indices. -/
def mesh0 : CardboardMesh :=
  { indices := fun i => (i : Int), n_indices := 6,
    vertices := fun i => (i : Int) * 2, n_vertices := 4,
    uvs := fun i => (i : Int) + 10 }

/-- A second concrete mesh with a different index count. -/
def mesh1 : CardboardMesh :=
  { indices := fun i => (i : Int) + 1, n_indices := 9,
    vertices := fun i => (i : Int), n_vertices := 5,
    uvs := fun i => (i : Int) }

/-- A concrete eye texture description. -/
def tex0 : CardboardEyeTextureDescription := ⟨100, 0, 1, 0, 1⟩

/-- A concrete render target: render pass 7, slot 0. -/
def tgt0 : CardboardVulkanDistortionRendererTarget := ⟨7, 0⟩

/-! Small list helpers. -/

/-- Reading the i-th element of a mapped range. -/
theorem getD_map_range {α : Type} (f : Nat → α) {n i : Nat} (hi : i < n) (dflt : α) :
    ((List.range n).map f).getD i dflt = f i := by
  rw [List.getD_eq_getElem?_getD, List.getElem?_map, List.getElem?_range hi]
  rfl

/-- C2: a call whose slot index is at or above the swapchain image count
returns the renderer, the device log and the command trace unchanged:
no drawing commands, no resource event, no state mutation. -/
theorem renderEyeToDisplay_out_of_range_noop (r : VDR) (d : Device)
    (target : CardboardVulkanDistortionRendererTarget) (x y width height : Int)
    (left_eye right_eye : CardboardEyeTextureDescription)
    (h : r.swapchain_image_count_ ≤ target.swapchain_image_index) :
    RenderEyeToDisplay r d target x y width height left_eye right_eye = (r, d, []) := by
  unfold RenderEyeToDisplay
  simp [h]

/-- C2 witness: slot 5 on a two-image swapchain is a no-op. -/
theorem renderEyeToDisplay_out_of_range_noop_witness :
    rd0.1.swapchain_image_count_ ≤ (⟨7, 5⟩ :
      CardboardVulkanDistortionRendererTarget).swapchain_image_index ∧
    RenderEyeToDisplay rd0.1 rd0.2 ⟨7, 5⟩ 0 0 1000 500 tex0 tex0 = (rd0.1, rd0.2, []) :=
  ⟨by decide,
   renderEyeToDisplay_out_of_range_noop rd0.1 rd0.2 ⟨7, 5⟩ 0 0 1000 500 tex0 tex0
     (by decide)⟩

/-- C8: for draw-region (0, 0, 1000, 500) the left viewport is the full
region, the left scissor is offset (0,0) extent (500,500), and the right
scissor is offset (500,0) extent (500,500). -/
theorem viewport_split_concrete :
    (RenderEyeToDisplay rd0.1 rd0.2 tgt0 0 0 1000 500 tex0 tex0).1.viewport_.get .kLeft
        = some ⟨0, 0, 1000, 500⟩ ∧
    (RenderEyeToDisplay rd0.1 rd0.2 tgt0 0 0 1000 500 tex0 tex0).1.scissor_.get .kLeft
        = some ⟨0, 0, 500, 500⟩ ∧
    (RenderEyeToDisplay rd0.1 rd0.2 tgt0 0 0 1000 500 tex0 tex0).1.scissor_.get .kRight
        = some ⟨500, 0, 500, 500⟩ := by
  decide

/-- C9: the factory returns null exactly when the SDK initialization check
fails or the config argument is null; in particular a `LoadVulkan` failure
(`vulkan_ok = false`) still returns a constructed, non-null handle. -/
theorem create_returns_none_iff (cardboard_ready vulkan_ok : Bool)
    (config : Option Nat) (d : Device) :
    CardboardVulkanDistortionRenderer_create cardboard_ready vulkan_ok config d = none
      ↔ (cardboard_ready = false ∨ config = none) := by
  unfold CardboardVulkanDistortionRenderer_create
  split <;> simp_all

/-- C10: `SetMesh` on one eye changes only that eye's vertex and index
buffers plus the shared `indices_count_`; the other eye's buffers and all
uniform buffers, descriptor sets, pools, image-view caches, pipelines,
viewport/scissor state and cached frame state are untouched. -/
theorem setMesh_frame_effect (r : VDR) (d : Device) (mesh : CardboardMesh)
    (eye : CardboardEye) :
    ((SetMesh r d mesh eye).1.vertex_buffers_.get eye.other
        = r.vertex_buffers_.get eye.other) ∧
    ((SetMesh r d mesh eye).1.index_buffers_.get eye.other
        = r.index_buffers_.get eye.other) ∧
    (SetMesh r d mesh eye).1.uniform_buffers_ = r.uniform_buffers_ ∧
    (SetMesh r d mesh eye).1.descriptor_sets_ = r.descriptor_sets_ ∧
    (SetMesh r d mesh eye).1.descriptor_pool_ = r.descriptor_pool_ ∧
    (SetMesh r d mesh eye).1.image_views_ = r.image_views_ ∧
    (SetMesh r d mesh eye).1.graphics_pipeline_ = r.graphics_pipeline_ ∧
    (SetMesh r d mesh eye).1.viewport_ = r.viewport_ ∧
    (SetMesh r d mesh eye).1.scissor_ = r.scissor_ ∧
    (SetMesh r d mesh eye).1.current_render_pass_ = r.current_render_pass_ ∧
    (SetMesh r d mesh eye).1.current_image_width_ = r.current_image_width_ ∧
    (SetMesh r d mesh eye).1.current_image_height_ = r.current_image_height_ ∧
    (SetMesh r d mesh eye).1.swapchain_views_ = r.swapchain_views_ ∧
    (SetMesh r d mesh eye).1.swapchain_image_count_ = r.swapchain_image_count_ ∧
    (SetMesh r d mesh eye).1.texture_sampler_ = r.texture_sampler_ ∧
    (SetMesh r d mesh eye).1.descriptor_set_layout_ = r.descriptor_set_layout_ ∧
    (SetMesh r d mesh eye).1.pipeline_layout_ = r.pipeline_layout_ ∧
    (SetMesh r d mesh eye).1.indices_count_ = mesh.n_indices := by
  cases eye <;>
    simp [SetMesh, CreateVertexBuffer, CreateIndexBuffer, CreateBuffer,
      EyePair.set, EyePair.get, CardboardEye.other]

/-- C4: after `SetMesh`, the eye's vertex buffer is N by 16 bytes holding
the interleaved (pos 2i, pos 2i+1, uv 2i, uv 2i+1) sequence and the index
buffer is M by 2 bytes holding each input index truncated to 16 bits. -/
theorem setMesh_buffer_contents (r : VDR) (d : Device) (mesh : CardboardMesh)
    (eye : CardboardEye) :
    ((SetMesh r d mesh eye).1.vertex_buffers_.get eye).map VertexBufferState.size
        = some (16 * mesh.n_vertices) ∧
    ((SetMesh r d mesh eye).1.index_buffers_.get eye).map IndexBufferState.size
        = some (2 * mesh.n_indices) ∧
    ((SetMesh r d mesh eye).1.vertex_buffers_.get eye).map VertexBufferState.data
        = some (meshVertices mesh) ∧
    ((SetMesh r d mesh eye).1.index_buffers_.get eye).map IndexBufferState.data
        = some (meshIndices mesh) ∧
    (meshVertices mesh).length = mesh.n_vertices ∧
    (meshIndices mesh).length = mesh.n_indices ∧
    (∀ i, i < mesh.n_vertices → (meshVertices mesh).getD i ⟨0, 0, 0, 0⟩ =
        ⟨mesh.vertices (2 * i), mesh.vertices (2 * i + 1),
         mesh.uvs (2 * i), mesh.uvs (2 * i + 1)⟩) ∧
    (∀ i, i < mesh.n_indices → (meshIndices mesh).getD i 0 =
        (mesh.indices i % 65536).toNat) := by
  refine ⟨?_, ?_, ?_, ?_, ?_, ?_, ?_, ?_⟩
  · cases eye <;>
      simp [SetMesh, CreateVertexBuffer, CreateIndexBuffer, CreateBuffer,
        EyePair.set, EyePair.get, meshVertices]
  · cases eye <;>
      simp [SetMesh, CreateVertexBuffer, CreateIndexBuffer, CreateBuffer,
        EyePair.set, EyePair.get, meshIndices]
  · cases eye <;>
      simp [SetMesh, CreateVertexBuffer, CreateIndexBuffer, CreateBuffer,
        EyePair.set, EyePair.get]
  · cases eye <;>
      simp [SetMesh, CreateVertexBuffer, CreateIndexBuffer, CreateBuffer,
        EyePair.set, EyePair.get]
  · simp [meshVertices]
  · simp [meshIndices]
  · intro i hi
    rw [meshVertices, getD_map_range _ hi]
  · intro i hi
    rw [meshIndices, getD_map_range _ hi]

/-- C4 witness: the quad mesh's second interleaved vertex is read from flat
positions 2, 3 and flat uvs 2, 3. -/
theorem setMesh_buffer_contents_witness :
    1 < mesh0.n_vertices ∧
    (meshVertices mesh0).getD 1 ⟨0, 0, 0, 0⟩ =
      ⟨mesh0.vertices 2, mesh0.vertices 3, mesh0.uvs 2, mesh0.uvs 3⟩ :=
  ⟨by decide,
   (setMesh_buffer_contents rd0.1 rd0.2 mesh0 .kLeft).2.2.2.2.2.2.1 1 (by decide)⟩

/-! Field-preservation lemmas for the per-frame operations. -/

theorem CleanPipeline_fst (r : VDR) (d : Device) (e : CardboardEye) :
    (CleanPipeline r d e).1 =
      { r with graphics_pipeline_ := (CleanPipeline r d e).1.graphics_pipeline_ } := by
  unfold CleanPipeline
  split <;> rfl

theorem CreateGraphicsPipeline_fst (r : VDR) (d : Device) (e : CardboardEye) :
    (CreateGraphicsPipeline r d e).1 =
      { r with graphics_pipeline_ := (CreateGraphicsPipeline r d e).1.graphics_pipeline_ } := by
  unfold CreateGraphicsPipeline
  dsimp only
  rw [CleanPipeline_fst]

theorem UpdateUniformBuffer_eq (r : VDR) (e : CardboardEye) (ubo : UniformBufferObject) :
    UpdateUniformBuffer r e ubo =
      { r with uniform_buffers_ := (UpdateUniformBuffer r e ubo).uniform_buffers_ } := by
  unfold UpdateUniformBuffer
  rfl

theorem UpdateDescriptorSets_eq (r : VDR) (e : CardboardEye) (i : Nat) :
    UpdateDescriptorSets r e i =
      { r with descriptor_sets_ := (UpdateDescriptorSets r e i).descriptor_sets_ } := by
  unfold UpdateDescriptorSets
  rfl

theorem CleanTextureImageView_fst (r : VDR) (d : Device) (e : CardboardEye) (i : Nat) :
    (CleanTextureImageView r d e i).1 =
      { r with image_views_ := (CleanTextureImageView r d e i).1.image_views_ } := by
  unfold CleanTextureImageView
  split <;> rfl

theorem RenderDistortionMesh_fst (r : VDR) (d : Device)
    (desc : CardboardEyeTextureDescription) (e : CardboardEye) (i : Nat) :
    (RenderDistortionMesh r d desc e i).1 =
      { r with
          uniform_buffers_ := (RenderDistortionMesh r d desc e i).1.uniform_buffers_,
          image_views_ := (RenderDistortionMesh r d desc e i).1.image_views_,
          descriptor_sets_ := (RenderDistortionMesh r d desc e i).1.descriptor_sets_ } := by
  unfold RenderDistortionMesh
  dsimp only
  rw [UpdateDescriptorSets_eq]
  dsimp only
  rw [CleanTextureImageView_fst]
  dsimp only
  rw [UpdateUniformBuffer_eq]

theorem UpdateViewportAndScissor_eq (r : VDR) (e : CardboardEye) (x y : Int) :
    UpdateViewportAndScissor r e x y =
      { r with viewport_ := (UpdateViewportAndScissor r e x y).viewport_,
               scissor_ := (UpdateViewportAndScissor r e x y).scissor_ } := by
  unfold UpdateViewportAndScissor
  rfl

@[simp] theorem RDM1_viewport (r : VDR) (d : Device) (desc : CardboardEyeTextureDescription)
    (e : CardboardEye) (i : Nat) :
    (RenderDistortionMesh r d desc e i).1.viewport_ = r.viewport_ := by
  rw [RenderDistortionMesh_fst]

@[simp] theorem RDM1_scissor (r : VDR) (d : Device) (desc : CardboardEyeTextureDescription)
    (e : CardboardEye) (i : Nat) :
    (RenderDistortionMesh r d desc e i).1.scissor_ = r.scissor_ := by
  rw [RenderDistortionMesh_fst]

@[simp] theorem RDM1_width (r : VDR) (d : Device) (desc : CardboardEyeTextureDescription)
    (e : CardboardEye) (i : Nat) :
    (RenderDistortionMesh r d desc e i).1.current_image_width_ = r.current_image_width_ := by
  rw [RenderDistortionMesh_fst]

@[simp] theorem RDM1_height (r : VDR) (d : Device) (desc : CardboardEyeTextureDescription)
    (e : CardboardEye) (i : Nat) :
    (RenderDistortionMesh r d desc e i).1.current_image_height_ = r.current_image_height_ := by
  rw [RenderDistortionMesh_fst]

@[simp] theorem RDM1_indices (r : VDR) (d : Device) (desc : CardboardEyeTextureDescription)
    (e : CardboardEye) (i : Nat) :
    (RenderDistortionMesh r d desc e i).1.indices_count_ = r.indices_count_ := by
  rw [RenderDistortionMesh_fst]

@[simp] theorem RDM1_pipeline (r : VDR) (d : Device) (desc : CardboardEyeTextureDescription)
    (e : CardboardEye) (i : Nat) :
    (RenderDistortionMesh r d desc e i).1.graphics_pipeline_ = r.graphics_pipeline_ := by
  rw [RenderDistortionMesh_fst]

@[simp] theorem RDM1_render_pass (r : VDR) (d : Device) (desc : CardboardEyeTextureDescription)
    (e : CardboardEye) (i : Nat) :
    (RenderDistortionMesh r d desc e i).1.current_render_pass_ = r.current_render_pass_ := by
  rw [RenderDistortionMesh_fst]

@[simp] theorem RDM1_vertex_buffers (r : VDR) (d : Device) (desc : CardboardEyeTextureDescription)
    (e : CardboardEye) (i : Nat) :
    (RenderDistortionMesh r d desc e i).1.vertex_buffers_ = r.vertex_buffers_ := by
  rw [RenderDistortionMesh_fst]

@[simp] theorem RDM1_index_buffers (r : VDR) (d : Device) (desc : CardboardEyeTextureDescription)
    (e : CardboardEye) (i : Nat) :
    (RenderDistortionMesh r d desc e i).1.index_buffers_ = r.index_buffers_ := by
  rw [RenderDistortionMesh_fst]

@[simp] theorem RDM1_count (r : VDR) (d : Device) (desc : CardboardEyeTextureDescription)
    (e : CardboardEye) (i : Nat) :
    (RenderDistortionMesh r d desc e i).1.swapchain_image_count_ = r.swapchain_image_count_ := by
  rw [RenderDistortionMesh_fst]

@[simp] theorem RDM1_swapchain_views (r : VDR) (d : Device) (desc : CardboardEyeTextureDescription)
    (e : CardboardEye) (i : Nat) :
    (RenderDistortionMesh r d desc e i).1.swapchain_views_ = r.swapchain_views_ := by
  rw [RenderDistortionMesh_fst]

@[simp] theorem CGP1_viewport (r : VDR) (d : Device) (e : CardboardEye) :
    (CreateGraphicsPipeline r d e).1.viewport_ = r.viewport_ := by
  rw [CreateGraphicsPipeline_fst]

@[simp] theorem CGP1_scissor (r : VDR) (d : Device) (e : CardboardEye) :
    (CreateGraphicsPipeline r d e).1.scissor_ = r.scissor_ := by
  rw [CreateGraphicsPipeline_fst]

@[simp] theorem CGP1_width (r : VDR) (d : Device) (e : CardboardEye) :
    (CreateGraphicsPipeline r d e).1.current_image_width_ = r.current_image_width_ := by
  rw [CreateGraphicsPipeline_fst]

@[simp] theorem CGP1_height (r : VDR) (d : Device) (e : CardboardEye) :
    (CreateGraphicsPipeline r d e).1.current_image_height_ = r.current_image_height_ := by
  rw [CreateGraphicsPipeline_fst]

@[simp] theorem CGP1_indices (r : VDR) (d : Device) (e : CardboardEye) :
    (CreateGraphicsPipeline r d e).1.indices_count_ = r.indices_count_ := by
  rw [CreateGraphicsPipeline_fst]

@[simp] theorem CGP1_render_pass (r : VDR) (d : Device) (e : CardboardEye) :
    (CreateGraphicsPipeline r d e).1.current_render_pass_ = r.current_render_pass_ := by
  rw [CreateGraphicsPipeline_fst]

@[simp] theorem CGP1_image_views (r : VDR) (d : Device) (e : CardboardEye) :
    (CreateGraphicsPipeline r d e).1.image_views_ = r.image_views_ := by
  rw [CreateGraphicsPipeline_fst]

@[simp] theorem CGP1_uniform_buffers (r : VDR) (d : Device) (e : CardboardEye) :
    (CreateGraphicsPipeline r d e).1.uniform_buffers_ = r.uniform_buffers_ := by
  rw [CreateGraphicsPipeline_fst]

@[simp] theorem CGP1_descriptor_sets (r : VDR) (d : Device) (e : CardboardEye) :
    (CreateGraphicsPipeline r d e).1.descriptor_sets_ = r.descriptor_sets_ := by
  rw [CreateGraphicsPipeline_fst]

@[simp] theorem CGP1_vertex_buffers (r : VDR) (d : Device) (e : CardboardEye) :
    (CreateGraphicsPipeline r d e).1.vertex_buffers_ = r.vertex_buffers_ := by
  rw [CreateGraphicsPipeline_fst]

@[simp] theorem CGP1_index_buffers (r : VDR) (d : Device) (e : CardboardEye) :
    (CreateGraphicsPipeline r d e).1.index_buffers_ = r.index_buffers_ := by
  rw [CreateGraphicsPipeline_fst]

@[simp] theorem CGP1_count (r : VDR) (d : Device) (e : CardboardEye) :
    (CreateGraphicsPipeline r d e).1.swapchain_image_count_ = r.swapchain_image_count_ := by
  rw [CreateGraphicsPipeline_fst]

@[simp] theorem CGP1_swapchain_views (r : VDR) (d : Device) (e : CardboardEye) :
    (CreateGraphicsPipeline r d e).1.swapchain_views_ = r.swapchain_views_ := by
  rw [CreateGraphicsPipeline_fst]

@[simp] theorem UVS_width (r : VDR) (e : CardboardEye) (x y : Int) :
    (UpdateViewportAndScissor r e x y).current_image_width_ = r.current_image_width_ := by
  rw [UpdateViewportAndScissor_eq]

@[simp] theorem UVS_height (r : VDR) (e : CardboardEye) (x y : Int) :
    (UpdateViewportAndScissor r e x y).current_image_height_ = r.current_image_height_ := by
  rw [UpdateViewportAndScissor_eq]

@[simp] theorem UVS_indices (r : VDR) (e : CardboardEye) (x y : Int) :
    (UpdateViewportAndScissor r e x y).indices_count_ = r.indices_count_ := by
  rw [UpdateViewportAndScissor_eq]

@[simp] theorem UVS_pipeline (r : VDR) (e : CardboardEye) (x y : Int) :
    (UpdateViewportAndScissor r e x y).graphics_pipeline_ = r.graphics_pipeline_ := by
  rw [UpdateViewportAndScissor_eq]

@[simp] theorem UVS_render_pass (r : VDR) (e : CardboardEye) (x y : Int) :
    (UpdateViewportAndScissor r e x y).current_render_pass_ = r.current_render_pass_ := by
  rw [UpdateViewportAndScissor_eq]

@[simp] theorem UVS_image_views (r : VDR) (e : CardboardEye) (x y : Int) :
    (UpdateViewportAndScissor r e x y).image_views_ = r.image_views_ := by
  rw [UpdateViewportAndScissor_eq]

@[simp] theorem UVS_uniform_buffers (r : VDR) (e : CardboardEye) (x y : Int) :
    (UpdateViewportAndScissor r e x y).uniform_buffers_ = r.uniform_buffers_ := by
  rw [UpdateViewportAndScissor_eq]

@[simp] theorem UVS_descriptor_sets (r : VDR) (e : CardboardEye) (x y : Int) :
    (UpdateViewportAndScissor r e x y).descriptor_sets_ = r.descriptor_sets_ := by
  rw [UpdateViewportAndScissor_eq]

@[simp] theorem UVS_vertex_buffers (r : VDR) (e : CardboardEye) (x y : Int) :
    (UpdateViewportAndScissor r e x y).vertex_buffers_ = r.vertex_buffers_ := by
  rw [UpdateViewportAndScissor_eq]

@[simp] theorem UVS_index_buffers (r : VDR) (e : CardboardEye) (x y : Int) :
    (UpdateViewportAndScissor r e x y).index_buffers_ = r.index_buffers_ := by
  rw [UpdateViewportAndScissor_eq]

@[simp] theorem UVS_count (r : VDR) (e : CardboardEye) (x y : Int) :
    (UpdateViewportAndScissor r e x y).swapchain_image_count_ = r.swapchain_image_count_ := by
  rw [UpdateViewportAndScissor_eq]

@[simp] theorem UVS_swapchain_views (r : VDR) (e : CardboardEye) (x y : Int) :
    (UpdateViewportAndScissor r e x y).swapchain_views_ = r.swapchain_views_ := by
  rw [UpdateViewportAndScissor_eq]

/-- Final viewport and scissor state of a valid `RenderEyeToDisplay` call,
computed in terms of the raw C++ integer conversions. -/
theorem renderEyeToDisplay_viewport_scissor (r : VDR) (d : Device)
    (target : CardboardVulkanDistortionRendererTarget) (x y width height : Int)
    (l rgt : CardboardEyeTextureDescription)
    (hidx : target.swapchain_image_index < r.swapchain_image_count_) :
    (RenderEyeToDisplay r d target x y width height l rgt).1.viewport_ =
      ⟨some ⟨x, y, uint32OfInt width, uint32OfInt height⟩,
       some ⟨x, y, uint32OfInt width, uint32OfInt height⟩⟩ ∧
    (RenderEyeToDisplay r d target x y width height l rgt).1.scissor_ =
      ⟨some ⟨x, y, uint32OfInt width / 2, uint32OfInt height⟩,
       some ⟨int32OfUInt ((uint32OfInt x + uint32OfInt width / 2) % 4294967296), y,
             uint32OfInt width / 2, uint32OfInt height⟩⟩ := by
  unfold RenderEyeToDisplay
  rw [if_neg (by omega)]
  dsimp only
  split <;>
    simp [UpdateViewportAndScissor, EyePair.set, EyePair.get]

/-- Modelled from the spec claim C7, not from the source: each eye's
viewport is claimed to be a half-width, full-height column of the draw
region, left at x-offset 0 and right at x-offset x + width/2, with the
scissor computed as the same split. -/
def specViewportHalfWidthColumn (r' : VDR) (x : Int) (width : Nat) : Prop :=
  (r'.viewport_.get .kLeft).map Viewport.width = some (width / 2) ∧
  (r'.viewport_.get .kLeft).map Viewport.x = some 0 ∧
  (r'.viewport_.get .kRight).map Viewport.width = some (width / 2) ∧
  (r'.viewport_.get .kRight).map Viewport.x = some (x + ((width / 2 : Nat) : Int)) ∧
  (r'.scissor_.get .kLeft).map VkRect2D.extent_width = some (width / 2) ∧
  (r'.scissor_.get .kRight).map VkRect2D.offset_x = some (x + ((width / 2 : Nat) : Int))

/-- C7 counterexample: at draw region (0, 0, 1000, 500) the code leaves
both viewports at the full 1000-wide region with x-offset 0, so the
claimed half-width viewport column is false. -/
theorem viewport_half_width_claim_false :
    ¬ specViewportHalfWidthColumn
        (RenderEyeToDisplay rd0.1 rd0.2 tgt0 0 0 1000 500 tex0 tex0).1 0 1000 := by
  simp only [specViewportHalfWidthColumn]
  decide

/-- C7 amended: for every valid draw call (in-range slot and draw-region
integers within 32-bit range), both eyes' viewports are the full draw
region; the half-width, full-height split is carried entirely by the
scissor rectangles — left offset (x, y), right offset (x + width/2, y),
both with extent (width/2, height). -/
theorem fullRegionViewport_scissorHalfSplit (r : VDR) (d : Device)
    (target : CardboardVulkanDistortionRendererTarget) (x y width height : Int)
    (l rgt : CardboardEyeTextureDescription)
    (hidx : target.swapchain_image_index < r.swapchain_image_count_)
    (hx : 0 ≤ x) (hx32 : x < 4294967296)
    (hw : 0 ≤ width) (hw32 : width < 4294967296)
    (hh : 0 ≤ height) (hh32 : height < 4294967296)
    (hsum : x.toNat + width.toNat / 2 < 2147483648) :
    (RenderEyeToDisplay r d target x y width height l rgt).1.viewport_.get .kLeft
        = some ⟨x, y, width.toNat, height.toNat⟩ ∧
    (RenderEyeToDisplay r d target x y width height l rgt).1.viewport_.get .kRight
        = some ⟨x, y, width.toNat, height.toNat⟩ ∧
    (RenderEyeToDisplay r d target x y width height l rgt).1.scissor_.get .kLeft
        = some ⟨x, y, width.toNat / 2, height.toNat⟩ ∧
    (RenderEyeToDisplay r d target x y width height l rgt).1.scissor_.get .kRight
        = some ⟨x + ((width.toNat / 2 : Nat) : Int), y, width.toNat / 2, height.toNat⟩ := by
  obtain ⟨hv, hs⟩ :=
    renderEyeToDisplay_viewport_scissor r d target x y width height l rgt hidx
  have h1 : uint32OfInt width = width.toNat := by unfold uint32OfInt; omega
  have h2 : uint32OfInt height = height.toNat := by unfold uint32OfInt; omega
  have h3 : uint32OfInt x = x.toNat := by unfold uint32OfInt; omega
  have h4 : int32OfUInt ((uint32OfInt x + uint32OfInt width / 2) % 4294967296)
      = x + ((width.toNat / 2 : Nat) : Int) := by
    rw [h3, h1]
    unfold int32OfUInt
    rw [if_pos]
    · omega
    · omega
  rw [hv, hs, h4, h1, h2]
  exact ⟨rfl, rfl, rfl, rfl⟩

/-- C7 amended witness: the concrete (0, 0, 1000, 500) draw region gives
the right-eye scissor offset (500, 0) and extent (500, 500). -/
theorem fullRegionViewport_scissorHalfSplit_witness :
    tgt0.swapchain_image_index < rd0.1.swapchain_image_count_ ∧
    (RenderEyeToDisplay rd0.1 rd0.2 tgt0 0 0 1000 500 tex0 tex0).1.scissor_.get .kRight
        = some ⟨0 + (((1000 : Int).toNat / 2 : Nat) : Int), 0,
                (1000 : Int).toNat / 2, (500 : Int).toNat⟩ :=
  ⟨by decide,
   (fullRegionViewport_scissorHalfSplit rd0.1 rd0.2 tgt0 0 0 1000 500 tex0 tex0
      (by decide) (by decide) (by decide) (by decide) (by decide) (by decide)
      (by decide) (by decide)).2.2.2⟩


/-! Projection lemmas for the small per-eye update functions. -/

@[simp] theorem UUB_viewport (r : VDR) (e : CardboardEye) (u : UniformBufferObject) :
    (UpdateUniformBuffer r e u).viewport_ = r.viewport_ := by
  rw [UpdateUniformBuffer_eq]

@[simp] theorem UUB_scissor (r : VDR) (e : CardboardEye) (u : UniformBufferObject) :
    (UpdateUniformBuffer r e u).scissor_ = r.scissor_ := by
  rw [UpdateUniformBuffer_eq]

@[simp] theorem UUB_current_image_width (r : VDR) (e : CardboardEye) (u : UniformBufferObject) :
    (UpdateUniformBuffer r e u).current_image_width_ = r.current_image_width_ := by
  rw [UpdateUniformBuffer_eq]

@[simp] theorem UUB_current_image_height (r : VDR) (e : CardboardEye) (u : UniformBufferObject) :
    (UpdateUniformBuffer r e u).current_image_height_ = r.current_image_height_ := by
  rw [UpdateUniformBuffer_eq]

@[simp] theorem UUB_indices_count (r : VDR) (e : CardboardEye) (u : UniformBufferObject) :
    (UpdateUniformBuffer r e u).indices_count_ = r.indices_count_ := by
  rw [UpdateUniformBuffer_eq]

@[simp] theorem UUB_graphics_pipeline (r : VDR) (e : CardboardEye) (u : UniformBufferObject) :
    (UpdateUniformBuffer r e u).graphics_pipeline_ = r.graphics_pipeline_ := by
  rw [UpdateUniformBuffer_eq]

@[simp] theorem UUB_current_render_pass (r : VDR) (e : CardboardEye) (u : UniformBufferObject) :
    (UpdateUniformBuffer r e u).current_render_pass_ = r.current_render_pass_ := by
  rw [UpdateUniformBuffer_eq]

@[simp] theorem UUB_vertex_buffers (r : VDR) (e : CardboardEye) (u : UniformBufferObject) :
    (UpdateUniformBuffer r e u).vertex_buffers_ = r.vertex_buffers_ := by
  rw [UpdateUniformBuffer_eq]

@[simp] theorem UUB_index_buffers (r : VDR) (e : CardboardEye) (u : UniformBufferObject) :
    (UpdateUniformBuffer r e u).index_buffers_ = r.index_buffers_ := by
  rw [UpdateUniformBuffer_eq]

@[simp] theorem UUB_swapchain_image_count (r : VDR) (e : CardboardEye) (u : UniformBufferObject) :
    (UpdateUniformBuffer r e u).swapchain_image_count_ = r.swapchain_image_count_ := by
  rw [UpdateUniformBuffer_eq]

@[simp] theorem UUB_swapchain_views (r : VDR) (e : CardboardEye) (u : UniformBufferObject) :
    (UpdateUniformBuffer r e u).swapchain_views_ = r.swapchain_views_ := by
  rw [UpdateUniformBuffer_eq]

@[simp] theorem UUB_descriptor_sets (r : VDR) (e : CardboardEye) (u : UniformBufferObject) :
    (UpdateUniformBuffer r e u).descriptor_sets_ = r.descriptor_sets_ := by
  rw [UpdateUniformBuffer_eq]

@[simp] theorem UUB_image_views (r : VDR) (e : CardboardEye) (u : UniformBufferObject) :
    (UpdateUniformBuffer r e u).image_views_ = r.image_views_ := by
  rw [UpdateUniformBuffer_eq]

@[simp] theorem UUB_texture_sampler (r : VDR) (e : CardboardEye) (u : UniformBufferObject) :
    (UpdateUniformBuffer r e u).texture_sampler_ = r.texture_sampler_ := by
  rw [UpdateUniformBuffer_eq]

@[simp] theorem UUB_descriptor_set_layout (r : VDR) (e : CardboardEye) (u : UniformBufferObject) :
    (UpdateUniformBuffer r e u).descriptor_set_layout_ = r.descriptor_set_layout_ := by
  rw [UpdateUniformBuffer_eq]

@[simp] theorem UUB_pipeline_layout (r : VDR) (e : CardboardEye) (u : UniformBufferObject) :
    (UpdateUniformBuffer r e u).pipeline_layout_ = r.pipeline_layout_ := by
  rw [UpdateUniformBuffer_eq]

@[simp] theorem UUB_descriptor_pool (r : VDR) (e : CardboardEye) (u : UniformBufferObject) :
    (UpdateUniformBuffer r e u).descriptor_pool_ = r.descriptor_pool_ := by
  rw [UpdateUniformBuffer_eq]

@[simp] theorem UDS_viewport (r : VDR) (e : CardboardEye) (i : Nat) :
    (UpdateDescriptorSets r e i).viewport_ = r.viewport_ := by
  rw [UpdateDescriptorSets_eq]

@[simp] theorem UDS_scissor (r : VDR) (e : CardboardEye) (i : Nat) :
    (UpdateDescriptorSets r e i).scissor_ = r.scissor_ := by
  rw [UpdateDescriptorSets_eq]

@[simp] theorem UDS_current_image_width (r : VDR) (e : CardboardEye) (i : Nat) :
    (UpdateDescriptorSets r e i).current_image_width_ = r.current_image_width_ := by
  rw [UpdateDescriptorSets_eq]

@[simp] theorem UDS_current_image_height (r : VDR) (e : CardboardEye) (i : Nat) :
    (UpdateDescriptorSets r e i).current_image_height_ = r.current_image_height_ := by
  rw [UpdateDescriptorSets_eq]

@[simp] theorem UDS_indices_count (r : VDR) (e : CardboardEye) (i : Nat) :
    (UpdateDescriptorSets r e i).indices_count_ = r.indices_count_ := by
  rw [UpdateDescriptorSets_eq]

@[simp] theorem UDS_graphics_pipeline (r : VDR) (e : CardboardEye) (i : Nat) :
    (UpdateDescriptorSets r e i).graphics_pipeline_ = r.graphics_pipeline_ := by
  rw [UpdateDescriptorSets_eq]

@[simp] theorem UDS_current_render_pass (r : VDR) (e : CardboardEye) (i : Nat) :
    (UpdateDescriptorSets r e i).current_render_pass_ = r.current_render_pass_ := by
  rw [UpdateDescriptorSets_eq]

@[simp] theorem UDS_vertex_buffers (r : VDR) (e : CardboardEye) (i : Nat) :
    (UpdateDescriptorSets r e i).vertex_buffers_ = r.vertex_buffers_ := by
  rw [UpdateDescriptorSets_eq]

@[simp] theorem UDS_index_buffers (r : VDR) (e : CardboardEye) (i : Nat) :
    (UpdateDescriptorSets r e i).index_buffers_ = r.index_buffers_ := by
  rw [UpdateDescriptorSets_eq]

@[simp] theorem UDS_swapchain_image_count (r : VDR) (e : CardboardEye) (i : Nat) :
    (UpdateDescriptorSets r e i).swapchain_image_count_ = r.swapchain_image_count_ := by
  rw [UpdateDescriptorSets_eq]

@[simp] theorem UDS_swapchain_views (r : VDR) (e : CardboardEye) (i : Nat) :
    (UpdateDescriptorSets r e i).swapchain_views_ = r.swapchain_views_ := by
  rw [UpdateDescriptorSets_eq]

@[simp] theorem UDS_uniform_buffers (r : VDR) (e : CardboardEye) (i : Nat) :
    (UpdateDescriptorSets r e i).uniform_buffers_ = r.uniform_buffers_ := by
  rw [UpdateDescriptorSets_eq]

@[simp] theorem UDS_image_views (r : VDR) (e : CardboardEye) (i : Nat) :
    (UpdateDescriptorSets r e i).image_views_ = r.image_views_ := by
  rw [UpdateDescriptorSets_eq]

@[simp] theorem UDS_texture_sampler (r : VDR) (e : CardboardEye) (i : Nat) :
    (UpdateDescriptorSets r e i).texture_sampler_ = r.texture_sampler_ := by
  rw [UpdateDescriptorSets_eq]

@[simp] theorem UDS_descriptor_set_layout (r : VDR) (e : CardboardEye) (i : Nat) :
    (UpdateDescriptorSets r e i).descriptor_set_layout_ = r.descriptor_set_layout_ := by
  rw [UpdateDescriptorSets_eq]

@[simp] theorem UDS_pipeline_layout (r : VDR) (e : CardboardEye) (i : Nat) :
    (UpdateDescriptorSets r e i).pipeline_layout_ = r.pipeline_layout_ := by
  rw [UpdateDescriptorSets_eq]

@[simp] theorem UDS_descriptor_pool (r : VDR) (e : CardboardEye) (i : Nat) :
    (UpdateDescriptorSets r e i).descriptor_pool_ = r.descriptor_pool_ := by
  rw [UpdateDescriptorSets_eq]

@[simp] theorem CTIV1_viewport (r : VDR) (d : Device) (e : CardboardEye) (i : Nat) :
    (CleanTextureImageView r d e i).1.viewport_ = r.viewport_ := by
  rw [CleanTextureImageView_fst]

@[simp] theorem CTIV1_scissor (r : VDR) (d : Device) (e : CardboardEye) (i : Nat) :
    (CleanTextureImageView r d e i).1.scissor_ = r.scissor_ := by
  rw [CleanTextureImageView_fst]

@[simp] theorem CTIV1_current_image_width (r : VDR) (d : Device) (e : CardboardEye) (i : Nat) :
    (CleanTextureImageView r d e i).1.current_image_width_ = r.current_image_width_ := by
  rw [CleanTextureImageView_fst]

@[simp] theorem CTIV1_current_image_height (r : VDR) (d : Device) (e : CardboardEye) (i : Nat) :
    (CleanTextureImageView r d e i).1.current_image_height_ = r.current_image_height_ := by
  rw [CleanTextureImageView_fst]

@[simp] theorem CTIV1_indices_count (r : VDR) (d : Device) (e : CardboardEye) (i : Nat) :
    (CleanTextureImageView r d e i).1.indices_count_ = r.indices_count_ := by
  rw [CleanTextureImageView_fst]

@[simp] theorem CTIV1_graphics_pipeline (r : VDR) (d : Device) (e : CardboardEye) (i : Nat) :
    (CleanTextureImageView r d e i).1.graphics_pipeline_ = r.graphics_pipeline_ := by
  rw [CleanTextureImageView_fst]

@[simp] theorem CTIV1_current_render_pass (r : VDR) (d : Device) (e : CardboardEye) (i : Nat) :
    (CleanTextureImageView r d e i).1.current_render_pass_ = r.current_render_pass_ := by
  rw [CleanTextureImageView_fst]

@[simp] theorem CTIV1_vertex_buffers (r : VDR) (d : Device) (e : CardboardEye) (i : Nat) :
    (CleanTextureImageView r d e i).1.vertex_buffers_ = r.vertex_buffers_ := by
  rw [CleanTextureImageView_fst]

@[simp] theorem CTIV1_index_buffers (r : VDR) (d : Device) (e : CardboardEye) (i : Nat) :
    (CleanTextureImageView r d e i).1.index_buffers_ = r.index_buffers_ := by
  rw [CleanTextureImageView_fst]

@[simp] theorem CTIV1_swapchain_image_count (r : VDR) (d : Device) (e : CardboardEye) (i : Nat) :
    (CleanTextureImageView r d e i).1.swapchain_image_count_ = r.swapchain_image_count_ := by
  rw [CleanTextureImageView_fst]

@[simp] theorem CTIV1_swapchain_views (r : VDR) (d : Device) (e : CardboardEye) (i : Nat) :
    (CleanTextureImageView r d e i).1.swapchain_views_ = r.swapchain_views_ := by
  rw [CleanTextureImageView_fst]

@[simp] theorem CTIV1_uniform_buffers (r : VDR) (d : Device) (e : CardboardEye) (i : Nat) :
    (CleanTextureImageView r d e i).1.uniform_buffers_ = r.uniform_buffers_ := by
  rw [CleanTextureImageView_fst]

@[simp] theorem CTIV1_descriptor_sets (r : VDR) (d : Device) (e : CardboardEye) (i : Nat) :
    (CleanTextureImageView r d e i).1.descriptor_sets_ = r.descriptor_sets_ := by
  rw [CleanTextureImageView_fst]

@[simp] theorem CTIV1_texture_sampler (r : VDR) (d : Device) (e : CardboardEye) (i : Nat) :
    (CleanTextureImageView r d e i).1.texture_sampler_ = r.texture_sampler_ := by
  rw [CleanTextureImageView_fst]

@[simp] theorem CTIV1_descriptor_set_layout (r : VDR) (d : Device) (e : CardboardEye) (i : Nat) :
    (CleanTextureImageView r d e i).1.descriptor_set_layout_ = r.descriptor_set_layout_ := by
  rw [CleanTextureImageView_fst]

@[simp] theorem CTIV1_pipeline_layout (r : VDR) (d : Device) (e : CardboardEye) (i : Nat) :
    (CleanTextureImageView r d e i).1.pipeline_layout_ = r.pipeline_layout_ := by
  rw [CleanTextureImageView_fst]

@[simp] theorem CTIV1_descriptor_pool (r : VDR) (d : Device) (e : CardboardEye) (i : Nat) :
    (CleanTextureImageView r d e i).1.descriptor_pool_ = r.descriptor_pool_ := by
  rw [CleanTextureImageView_fst]

/-- Trace fragment of `CleanTextureImageView` when a stale view exists. -/
theorem CTIV_ops_some {r : VDR} {d : Device} {e : CardboardEye} {i : Nat} {v : Handle}
    (h : (r.image_views_.get e).getD i none = some v) :
    (CleanTextureImageView r d e i).2.2 = [RenderOp.destroyViewOp e i] := by
  unfold CleanTextureImageView
  rw [h]

/-- Trace fragment of `CleanTextureImageView` when the slot is empty. -/
theorem CTIV_ops_none {r : VDR} {d : Device} {e : CardboardEye} {i : Nat}
    (h : (r.image_views_.get e).getD i none = none) :
    (CleanTextureImageView r d e i).2.2 = [] := by
  unfold CleanTextureImageView
  rw [h]

/-- Modelled from the spec claim C6, not from the source: the claimed
per-eye order — destroy the stale view, create the new view, update the
descriptor set, then write the remap rectangle into the uniform buffer,
then bind and draw. -/
def specClaimedEyeDrawOps (r rFinal : VDR) (desc : CardboardEyeTextureDescription)
    (eye : CardboardEye) (idx : Nat) : List RenderOp :=
  (if (r.image_views_.get eye).getD idx none = none then []
   else [RenderOp.destroyViewOp eye idx])
  ++ [RenderOp.createViewOp eye idx, RenderOp.updateDescriptorsOp eye idx,
      RenderOp.updateUniform eye ⟨desc.left_u, desc.right_u, desc.top_v, desc.bottom_v⟩]
  ++ (BindCommandBuffer rFinal eye idx r.indices_count_).map RenderOp.cmd

/-- C6 counterexample: on a freshly constructed renderer the recorded
per-eye sequence starts with the uniform-buffer write, not with the
image-view refresh, so the claimed order is false. -/
theorem eyeDrawOps_claimed_order_false :
    (RenderDistortionMesh rd0.1 rd0.2 tex0 .kLeft 0).2.2 ≠
      specClaimedEyeDrawOps rd0.1 (RenderDistortionMesh rd0.1 rd0.2 tex0 .kLeft 0).1
        tex0 .kLeft 0 := by
  decide

/-- C6 amended: the per-eye draw sequence is — write the remap rectangle
into the eye's uniform buffer first, then destroy the previous image view
for the slot (if any), create the new image view, update the slot's
descriptor set, then bind pipeline, viewport, scissor, vertex buffer,
index buffer and descriptor set and issue one indexed draw of
`indices_count_` indices with instance count 1; the descriptor-set write
still never precedes the new image view's creation. -/
theorem renderDistortionMesh_op_order (r : VDR) (d : Device)
    (desc : CardboardEyeTextureDescription) (eye : CardboardEye) (idx : Nat) :
    (RenderDistortionMesh r d desc eye idx).2.2 =
      [RenderOp.updateUniform eye ⟨desc.left_u, desc.right_u, desc.top_v, desc.bottom_v⟩]
      ++ (if (r.image_views_.get eye).getD idx none = none then []
          else [RenderOp.destroyViewOp eye idx])
      ++ [RenderOp.createViewOp eye idx, RenderOp.updateDescriptorsOp eye idx]
      ++ (BindCommandBuffer (RenderDistortionMesh r d desc eye idx).1 eye idx
            r.indices_count_).map RenderOp.cmd ∧
    ∃ p v s vb ib ds,
      BindCommandBuffer (RenderDistortionMesh r d desc eye idx).1 eye idx r.indices_count_
        = [.bindPipeline p, .setViewport v, .setScissor s, .bindVertexBuffers vb,
           .bindIndexBuffer ib, .bindDescriptorSets ds,
           .drawIndexed (r.indices_count_ % 4294967296) 1 0 0 0] := by
  constructor
  · rcases hcase : (r.image_views_.get eye).getD idx none with _ | v
    · rw [if_pos rfl]
      conv =>
        lhs
        unfold RenderDistortionMesh
      dsimp only
      rw [CTIV_ops_none (by rw [UUB_image_views]; exact hcase)]
      conv =>
        rhs
        unfold RenderDistortionMesh
      dsimp only
      simp
    · rw [if_neg (by simp [hcase])]
      conv =>
        lhs
        unfold RenderDistortionMesh
      dsimp only
      rw [CTIV_ops_some (by rw [UUB_image_views]; exact hcase)]
      conv =>
        rhs
        unfold RenderDistortionMesh
      dsimp only
      simp
  · exact ⟨_, _, _, _, _, _, rfl⟩

@[simp] theorem drawCounts_append (l1 l2 : List RenderOp) :
    drawCounts (l1 ++ l2) = drawCounts l1 ++ drawCounts l2 := by
  simp [drawCounts]

@[simp] theorem drawCounts_nil : drawCounts [] = [] := rfl

@[simp] theorem drawCounts_cons_createPipelineOp (e : CardboardEye) (l : List RenderOp) :
    drawCounts (RenderOp.createPipelineOp e :: l) = drawCounts l := rfl

/-- Each per-eye draw issues exactly one indexed draw of the shared
`indices_count_` (converted to `uint32`). -/
theorem drawCounts_RDM (r : VDR) (d : Device) (desc : CardboardEyeTextureDescription)
    (eye : CardboardEye) (idx : Nat) :
    drawCounts (RenderDistortionMesh r d desc eye idx).2.2
      = [r.indices_count_ % 4294967296] := by
  rcases hcase : (r.image_views_.get eye).getD idx none with _ | v
  · conv =>
      lhs
      unfold RenderDistortionMesh
    dsimp only
    rw [CTIV_ops_none (by rw [UUB_image_views]; exact hcase)]
    simp [drawCounts, BindCommandBuffer]
  · conv =>
      lhs
      unfold RenderDistortionMesh
    dsimp only
    rw [CTIV_ops_some (by rw [UUB_image_views]; exact hcase)]
    simp [drawCounts, BindCommandBuffer]

/-- A valid frame issues exactly two indexed draws, both of the shared
`indices_count_`. -/
theorem drawCounts_RETD (r : VDR) (d : Device)
    (target : CardboardVulkanDistortionRendererTarget) (x y w h : Int)
    (l rgt : CardboardEyeTextureDescription)
    (hidx : target.swapchain_image_index < r.swapchain_image_count_) :
    drawCounts (RenderEyeToDisplay r d target x y w h l rgt).2.2
      = [r.indices_count_ % 4294967296, r.indices_count_ % 4294967296] := by
  unfold RenderEyeToDisplay
  rw [if_neg (by omega)]
  dsimp only
  split <;>
    simp [drawCounts_RDM]

/-- The shared `indices_count_` after a run of `SetMesh` calls is the last
call's `n_indices`, regardless of which eye each call targeted. -/
theorem runSetMeshes_indices (ms : List (CardboardMesh × CardboardEye)) :
    ∀ (s : VDR × Device) (h : ms ≠ []),
      (runSetMeshes s ms).1.indices_count_ = ((ms.getLast h).1).n_indices := by
  induction ms with
  | nil => intro s h; exact absurd rfl h
  | cons a tail ih =>
      intro s h
      obtain ⟨r, d⟩ := s
      obtain ⟨m, e⟩ := a
      cases tail with
      | nil =>
          cases e <;>
            simp [runSetMeshes, SetMesh, CreateVertexBuffer, CreateIndexBuffer,
              CreateBuffer]
      | cons b t =>
          rw [show runSetMeshes (r, d) ((m, e) :: b :: t)
                = runSetMeshes (SetMesh r d m e) (b :: t) from rfl]
          rw [ih _ (by simp)]
          rfl

/-- C1: after any nonempty sequence of `SetMesh` calls, the shared
`indices_count_` is the last call's `n_indices`, and a following valid
frame draws both eyes with exactly that count. -/
theorem shared_index_count_last_setMesh (s : VDR × Device)
    (ms : List (CardboardMesh × CardboardEye)) (h : ms ≠ [])
    (target : CardboardVulkanDistortionRendererTarget) (x y w hh : Int)
    (l rgt : CardboardEyeTextureDescription)
    (hidx : target.swapchain_image_index < (runSetMeshes s ms).1.swapchain_image_count_) :
    (runSetMeshes s ms).1.indices_count_ = ((ms.getLast h).1).n_indices ∧
    drawCounts (RenderEyeToDisplay (runSetMeshes s ms).1 (runSetMeshes s ms).2
        target x y w hh l rgt).2.2
      = [((ms.getLast h).1).n_indices % 4294967296,
         ((ms.getLast h).1).n_indices % 4294967296] := by
  have h1 := runSetMeshes_indices ms s h
  refine ⟨h1, ?_⟩
  rw [drawCounts_RETD _ _ _ _ _ _ _ _ _ hidx, h1]

/-- C1 witness: after meshing the left eye with 6 indices and then the
right eye with 9 indices, both eyes draw 9 indices. -/
theorem shared_index_count_last_setMesh_witness :
    ((mesh0, CardboardEye.kLeft) :: [(mesh1, CardboardEye.kRight)] ≠ []) ∧
    drawCounts (RenderEyeToDisplay
        (runSetMeshes rd0 ((mesh0, CardboardEye.kLeft) :: [(mesh1, CardboardEye.kRight)])).1
        (runSetMeshes rd0 ((mesh0, CardboardEye.kLeft) :: [(mesh1, CardboardEye.kRight)])).2
        tgt0 0 0 1000 500 tex0 tex0).2.2
      = [mesh1.n_indices % 4294967296, mesh1.n_indices % 4294967296] :=
  ⟨List.cons_ne_nil _ _,
   (shared_index_count_last_setMesh rd0
      ((mesh0, CardboardEye.kLeft) :: [(mesh1, CardboardEye.kRight)])
      (List.cons_ne_nil _ _) tgt0 0 0 1000 500 tex0 tex0 (by decide)).2⟩

@[simp] theorem EyePair.set_set {α : Type} (p : EyePair α) (e : CardboardEye) (a b : α) :
    (p.set e a).set e b = p.set e b := by
  cases e <;> rfl

@[simp] theorem EyePair.set_left_right {α : Type} (p : EyePair α) (a b : α) :
    (p.set .kLeft a).set .kRight b = ⟨a, b⟩ := rfl

/-- Eyes whose pipelines a trace rebuilds, in order. -/
def buildOpsOf (ops : List RenderOp) : List CardboardEye :=
  ops.filterMap fun op =>
    match op with
    | .createPipelineOp e => some e
    | _ => none

@[simp] theorem buildOpsOf_append (l1 l2 : List RenderOp) :
    buildOpsOf (l1 ++ l2) = buildOpsOf l1 ++ buildOpsOf l2 := by
  simp [buildOpsOf]

@[simp] theorem buildOpsOf_nil : buildOpsOf [] = [] := rfl

@[simp] theorem buildOpsOf_cons_createPipelineOp (e : CardboardEye) (l : List RenderOp) :
    buildOpsOf (RenderOp.createPipelineOp e :: l) = e :: buildOpsOf l := rfl

/-- Number of `vkCreateGraphicsPipelines` calls recorded in a device log. -/
def pipelineCreatesCount (log : List DeviceEvent) : Nat :=
  (pipelineCreatesList log).length

/-- A per-eye draw rebuilds no pipeline. -/
theorem buildOpsOf_RDM (r : VDR) (d : Device) (desc : CardboardEyeTextureDescription)
    (eye : CardboardEye) (idx : Nat) :
    buildOpsOf (RenderDistortionMesh r d desc eye idx).2.2 = [] := by
  rcases hcase : (r.image_views_.get eye).getD idx none with _ | v
  · conv =>
      lhs
      unfold RenderDistortionMesh
    dsimp only
    rw [CTIV_ops_none (by rw [UUB_image_views]; exact hcase)]
    simp [buildOpsOf, BindCommandBuffer]
  · conv =>
      lhs
      unfold RenderDistortionMesh
    dsimp only
    rw [CTIV_ops_some (by rw [UUB_image_views]; exact hcase)]
    simp [buildOpsOf, BindCommandBuffer]

/-- A per-eye draw records no pipeline creation on the device. -/
theorem pipelineCreates_RDM (r : VDR) (d : Device) (desc : CardboardEyeTextureDescription)
    (eye : CardboardEye) (idx : Nat) :
    pipelineCreatesCount (RenderDistortionMesh r d desc eye idx).2.1.log
      = pipelineCreatesCount d.log := by
  unfold RenderDistortionMesh CleanTextureImageView
  dsimp only
  split <;>
    simp [CreateImageView, Device.fresh, Device.emit, pipelineCreatesCount,
      pipelineCreatesList, List.filterMap_append]

/-- A pipeline build records exactly one pipeline creation. -/
theorem pipelineCreates_CGP (r : VDR) (d : Device) (e : CardboardEye) :
    pipelineCreatesCount (CreateGraphicsPipeline r d e).2.log
      = pipelineCreatesCount d.log + 1 := by
  unfold CreateGraphicsPipeline CleanPipeline
  dsimp only
  split <;>
    simp [Device.fresh, Device.emit, pipelineCreatesCount,
      pipelineCreatesList, List.filterMap_append]

/-- The pipeline built by `CreateGraphicsPipeline` replaces the eye's entry
with a fresh handle bound to the current render pass. -/
theorem CGP_pipeline (r : VDR) (d : Device) (e : CardboardEye) :
    (CreateGraphicsPipeline r d e).1.graphics_pipeline_
      = r.graphics_pipeline_.set e (some ⟨d.next_handle + 2, r.current_render_pass_⟩) := by
  unfold CreateGraphicsPipeline CleanPipeline
  dsimp only
  split <;> simp [Device.fresh, Device.emit, Nat.add_assoc]

/-- `CreateGraphicsPipeline` consumes exactly three fresh handles. -/
theorem CGP_next (r : VDR) (d : Device) (e : CardboardEye) :
    (CreateGraphicsPipeline r d e).2.next_handle = d.next_handle + 3 := by
  unfold CreateGraphicsPipeline CleanPipeline
  dsimp only
  split <;> simp [Device.fresh, Device.emit, Nat.add_assoc]

/-- After any valid frame the cached render pass equals the caller's. -/
theorem RETD_render_pass (r : VDR) (d : Device)
    (target : CardboardVulkanDistortionRendererTarget) (x y w h : Int)
    (l rgt : CardboardEyeTextureDescription)
    (hidx : target.swapchain_image_index < r.swapchain_image_count_) :
    (RenderEyeToDisplay r d target x y w h l rgt).1.current_render_pass_
      = some target.vk_render_pass := by
  unfold RenderEyeToDisplay
  rw [if_neg (by omega)]
  dsimp only
  split
  · simp
  · next hc =>
    simp only [ne_eq, not_not] at hc
    simp [hc]

/-- The swapchain image count is never changed by a frame. -/
theorem RETD_count (r : VDR) (d : Device)
    (target : CardboardVulkanDistortionRendererTarget) (x y w h : Int)
    (l rgt : CardboardEyeTextureDescription) :
    (RenderEyeToDisplay r d target x y w h l rgt).1.swapchain_image_count_
      = r.swapchain_image_count_ := by
  unfold RenderEyeToDisplay
  dsimp only
  split
  · rfl
  · dsimp only
    split <;> simp

/-- When the render pass changed, a valid frame rebuilds both pipelines
(fresh handles, bound to the new render pass), records exactly two
pipeline creations, and the two rebuild operations open the trace, before
the two draws. -/
theorem RETD_changed_bundle (r : VDR) (d : Device)
    (target : CardboardVulkanDistortionRendererTarget) (x y w h : Int)
    (l rgt : CardboardEyeTextureDescription)
    (hidx : target.swapchain_image_index < r.swapchain_image_count_)
    (hne : r.current_render_pass_ ≠ some target.vk_render_pass) :
    (RenderEyeToDisplay r d target x y w h l rgt).1.graphics_pipeline_
        = ⟨some ⟨d.next_handle + 2, some target.vk_render_pass⟩,
           some ⟨d.next_handle + 5, some target.vk_render_pass⟩⟩ ∧
    pipelineCreatesCount (RenderEyeToDisplay r d target x y w h l rgt).2.1.log
        = pipelineCreatesCount d.log + 2 ∧
    (RenderEyeToDisplay r d target x y w h l rgt).2.2.take 2
        = [RenderOp.createPipelineOp .kLeft, RenderOp.createPipelineOp .kRight] ∧
    buildOpsOf (RenderEyeToDisplay r d target x y w h l rgt).2.2
        = [CardboardEye.kLeft, CardboardEye.kRight] ∧
    (drawCounts (RenderEyeToDisplay r d target x y w h l rgt).2.2).length = 2 := by
  unfold RenderEyeToDisplay
  rw [if_neg (by omega)]
  dsimp only
  rw [if_pos (Ne.symm hne)]
  dsimp only
  refine ⟨?_, ?_, ?_, ?_, ?_⟩
  · simp [CGP_pipeline, CGP_next, Nat.add_assoc]
  · simp [pipelineCreates_RDM, pipelineCreates_CGP, Nat.add_assoc]
  · rfl
  · simp [buildOpsOf_RDM]
  · simp [drawCounts_RDM]

/-- When the render pass is unchanged, a valid frame reuses both existing
pipelines: no pipeline object is created and no rebuild appears in the
trace. -/
theorem RETD_unchanged_bundle (r : VDR) (d : Device)
    (target : CardboardVulkanDistortionRendererTarget) (x y w h : Int)
    (l rgt : CardboardEyeTextureDescription)
    (hidx : target.swapchain_image_index < r.swapchain_image_count_)
    (heq : r.current_render_pass_ = some target.vk_render_pass) :
    (RenderEyeToDisplay r d target x y w h l rgt).1.graphics_pipeline_
        = r.graphics_pipeline_ ∧
    pipelineCreatesCount (RenderEyeToDisplay r d target x y w h l rgt).2.1.log
        = pipelineCreatesCount d.log ∧
    buildOpsOf (RenderEyeToDisplay r d target x y w h l rgt).2.2 = [] := by
  unfold RenderEyeToDisplay
  rw [if_neg (by omega)]
  dsimp only
  rw [if_neg (by simp [heq])]
  dsimp only
  refine ⟨?_, ?_, ?_⟩
  · simp
  · simp [pipelineCreates_RDM]
  · simp [buildOpsOf_RDM]

/-- C3: on a valid frame, pipelines are rebuilt exactly when the supplied
render pass differs from the cached one — then both eyes get fresh
pipelines bound to the new render pass, exactly two pipeline creations are
recorded, and the two rebuilds open the trace before either eye's draw;
with an unchanged render pass nothing is rebuilt and the pipelines are
reused, so a second consecutive call with the same render-pass handle
never rebuilds. -/
theorem pipelines_rebuilt_iff_render_pass_changed (r : VDR) (d : Device)
    (target target2 : CardboardVulkanDistortionRendererTarget)
    (x y w h x2 y2 w2 h2 : Int)
    (l rgt l2 rgt2 : CardboardEyeTextureDescription)
    (hidx : target.swapchain_image_index < r.swapchain_image_count_)
    (hidx2 : target2.swapchain_image_index < r.swapchain_image_count_)
    (hsame : target2.vk_render_pass = target.vk_render_pass) :
    (r.current_render_pass_ ≠ some target.vk_render_pass →
      (RenderEyeToDisplay r d target x y w h l rgt).1.current_render_pass_
          = some target.vk_render_pass ∧
      (RenderEyeToDisplay r d target x y w h l rgt).1.graphics_pipeline_
          = ⟨some ⟨d.next_handle + 2, some target.vk_render_pass⟩,
             some ⟨d.next_handle + 5, some target.vk_render_pass⟩⟩ ∧
      pipelineCreatesCount (RenderEyeToDisplay r d target x y w h l rgt).2.1.log
          = pipelineCreatesCount d.log + 2 ∧
      (RenderEyeToDisplay r d target x y w h l rgt).2.2.take 2
          = [RenderOp.createPipelineOp .kLeft, RenderOp.createPipelineOp .kRight] ∧
      buildOpsOf (RenderEyeToDisplay r d target x y w h l rgt).2.2
          = [CardboardEye.kLeft, CardboardEye.kRight] ∧
      (drawCounts (RenderEyeToDisplay r d target x y w h l rgt).2.2).length = 2) ∧
    (r.current_render_pass_ = some target.vk_render_pass →
      (RenderEyeToDisplay r d target x y w h l rgt).1.graphics_pipeline_
          = r.graphics_pipeline_ ∧
      pipelineCreatesCount (RenderEyeToDisplay r d target x y w h l rgt).2.1.log
          = pipelineCreatesCount d.log ∧
      buildOpsOf (RenderEyeToDisplay r d target x y w h l rgt).2.2 = []) ∧
    ((RenderEyeToDisplay (RenderEyeToDisplay r d target x y w h l rgt).1
          (RenderEyeToDisplay r d target x y w h l rgt).2.1
          target2 x2 y2 w2 h2 l2 rgt2).1.graphics_pipeline_
        = (RenderEyeToDisplay r d target x y w h l rgt).1.graphics_pipeline_ ∧
     pipelineCreatesCount (RenderEyeToDisplay (RenderEyeToDisplay r d target x y w h l rgt).1
          (RenderEyeToDisplay r d target x y w h l rgt).2.1
          target2 x2 y2 w2 h2 l2 rgt2).2.1.log
        = pipelineCreatesCount (RenderEyeToDisplay r d target x y w h l rgt).2.1.log ∧
     buildOpsOf (RenderEyeToDisplay (RenderEyeToDisplay r d target x y w h l rgt).1
          (RenderEyeToDisplay r d target x y w h l rgt).2.1
          target2 x2 y2 w2 h2 l2 rgt2).2.2 = []) := by
  refine ⟨?_, ?_, ?_⟩
  · intro hne
    have hb := RETD_changed_bundle r d target x y w h l rgt hidx hne
    exact ⟨RETD_render_pass r d target x y w h l rgt hidx,
      hb.1, hb.2.1, hb.2.2.1, hb.2.2.2.1, hb.2.2.2.2⟩
  · intro heq
    exact RETD_unchanged_bundle r d target x y w h l rgt hidx heq
  · have hrp := RETD_render_pass r d target x y w h l rgt hidx
    have hidx2' : target2.swapchain_image_index
        < (RenderEyeToDisplay r d target x y w h l rgt).1.swapchain_image_count_ := by
      rw [RETD_count]
      exact hidx2
    have heq2 : (RenderEyeToDisplay r d target x y w h l rgt).1.current_render_pass_
        = some target2.vk_render_pass := by
      rw [hrp, hsame]
    exact RETD_unchanged_bundle _ _ target2 x2 y2 w2 h2 l2 rgt2 hidx2' heq2

/-- C3 witness: on the fresh renderer a second frame with the same render
pass rebuilds nothing. -/
theorem pipelines_rebuilt_iff_render_pass_changed_witness :
    tgt0.swapchain_image_index < rd0.1.swapchain_image_count_ ∧
    buildOpsOf (RenderEyeToDisplay (RenderEyeToDisplay rd0.1 rd0.2 tgt0 0 0 1000 500 tex0 tex0).1
        (RenderEyeToDisplay rd0.1 rd0.2 tgt0 0 0 1000 500 tex0 tex0).2.1
        tgt0 0 0 1000 500 tex0 tex0).2.2 = [] :=
  ⟨by decide,
   (pipelines_rebuilt_iff_render_pass_changed rd0.1 rd0.2 tgt0 tgt0
      0 0 1000 500 0 0 1000 500 tex0 tex0 tex0 tex0
      (by decide) (by decide) rfl).2.2.2.2⟩

@[simp] theorem EyePair.get_set_same {α : Type} (p : EyePair α) (e : CardboardEye) (v : α) :
    (p.set e v).get e = v := by
  cases e <;> rfl

theorem filterMap_id_set_multiset {α : Type} (l : List (Option α)) (i : Nat)
    (x : Option α) (h : i < l.length) :
    (↑((l.set i x).filterMap id) : Multiset α) + ↑((l.getD i none).toList)
      = ↑(l.filterMap id) + ↑(x.toList) := by
  induction l generalizing i with
  | nil => simp at h
  | cons a t ih =>
      cases i with
      | zero =>
          cases a <;> cases x <;>
            simp [← Multiset.cons_coe, ← Multiset.singleton_add,
              add_comm, add_left_comm, add_assoc]
      | succ j =>
          have hj : j < t.length := by simpa using h
          have h2 := ih j hj
          cases a with
          | none => simpa using h2
          | some v =>
              simp only [List.set_cons_succ, List.getD_cons_succ,
                List.filterMap_cons, id] at *
              simp only [← Multiset.cons_coe, Multiset.cons_add]
              rw [h2]

theorem sum_getD_toList {α : Type} (l : List (Option α)) :
    ((List.range l.length).map fun i => (↑((l.getD i none).toList) : Multiset α)).sum
      = ↑(l.filterMap id) := by
  induction l with
  | nil => simp
  | cons a t ih =>
      rw [List.length_cons, List.range_succ_eq_map]
      cases a <;>
        simp [List.map_map, Function.comp_def, List.getD_eq_getElem?_getD,
          List.getElem?_cons_succ, ← Multiset.cons_coe,
          ← List.getD_eq_getElem?_getD, ih]

theorem sum_getD_singleton {α : Type} (l : List α) (dflt : α) :
    ((List.range l.length).map fun i => ({l.getD i dflt} : Multiset α)).sum = ↑l := by
  induction l with
  | nil => simp
  | cons a t ih =>
      rw [List.length_cons, List.range_succ_eq_map]
      simp [List.map_map, Function.comp_def, List.getD_eq_getElem?_getD,
        List.getElem?_cons_succ, ← Multiset.cons_coe,
        ← List.getD_eq_getElem?_getD, ih]

theorem filterMap_id_replicate_none {α : Type} (n : Nat) :
    (List.replicate n (none : Option α)).filterMap id = [] := by
  induction n with
  | zero => rfl
  | succ k ih => simp [List.replicate_succ, ih]

/-- Full result of `CleanTextureImageView` when a stale view exists. -/
theorem CTIV_some {r : VDR} {d : Device} {e : CardboardEye} {i : Nat} {o : Handle}
    (h : (r.image_views_.get e).getD i none = some o) :
    CleanTextureImageView r d e i =
      ({ r with image_views_ := r.image_views_.set e ((r.image_views_.get e).set i none) },
       d.emit (.destroyImageView o), [.destroyViewOp e i]) := by
  unfold CleanTextureImageView
  rw [h]

/-- Full result of `CleanTextureImageView` when the slot is empty. -/
theorem CTIV_none {r : VDR} {d : Device} {e : CardboardEye} {i : Nat}
    (h : (r.image_views_.get e).getD i none = none) :
    CleanTextureImageView r d e i = (r, d, []) := by
  unfold CleanTextureImageView
  rw [h]

/-- Device and image-view cache after a per-eye draw over an occupied
slot: one destruction of the old view, one fresh view in its place. -/
theorem RDM_dev_some (r : VDR) (d : Device) (desc : CardboardEyeTextureDescription)
    (eye : CardboardEye) (idx : Nat) (o : Handle)
    (h : (r.image_views_.get eye).getD idx none = some o) :
    (RenderDistortionMesh r d desc eye idx).2.1 =
      { next_handle := d.next_handle + 1,
        log := d.log ++ [.destroyImageView o, .createImageView d.next_handle] } ∧
    (RenderDistortionMesh r d desc eye idx).1.image_views_
      = r.image_views_.set eye ((r.image_views_.get eye).set idx (some d.next_handle)) := by
  have h' : ((UpdateUniformBuffer r eye
      ⟨desc.left_u, desc.right_u, desc.top_v, desc.bottom_v⟩).image_views_.get eye).getD
        idx none = some o := by
    rw [UUB_image_views]
    exact h
  unfold RenderDistortionMesh
  dsimp only
  rw [CTIV_some h']
  constructor
  · simp [CreateImageView, Device.fresh, Device.emit]
  · simp [CreateImageView, Device.fresh, Device.emit, List.set_set]

/-- Device and image-view cache after a per-eye draw over an empty slot:
just one fresh view. -/
theorem RDM_dev_none (r : VDR) (d : Device) (desc : CardboardEyeTextureDescription)
    (eye : CardboardEye) (idx : Nat)
    (h : (r.image_views_.get eye).getD idx none = none) :
    (RenderDistortionMesh r d desc eye idx).2.1 =
      { next_handle := d.next_handle + 1,
        log := d.log ++ [.createImageView d.next_handle] } ∧
    (RenderDistortionMesh r d desc eye idx).1.image_views_
      = r.image_views_.set eye ((r.image_views_.get eye).set idx (some d.next_handle)) := by
  have h' : ((UpdateUniformBuffer r eye
      ⟨desc.left_u, desc.right_u, desc.top_v, desc.bottom_v⟩).image_views_.get eye).getD
        idx none = none := by
    rw [UUB_image_views]
    exact h
  unfold RenderDistortionMesh
  dsimp only
  rw [CTIV_none h']
  constructor
  · simp [CreateImageView, Device.fresh, Device.emit]
  · simp [CreateImageView, Device.fresh, Device.emit]

/-- Pipeline cleanup touches no view, buffer or memory accounting. -/
theorem measures_CleanPipeline (r : VDR) (d : Device) (e : CardboardEye) :
    viewCreates (CleanPipeline r d e).2.log = viewCreates d.log ∧
    viewDestroys (CleanPipeline r d e).2.log = viewDestroys d.log ∧
    bufferCreates (CleanPipeline r d e).2.log = bufferCreates d.log ∧
    bufferDestroys (CleanPipeline r d e).2.log = bufferDestroys d.log ∧
    memoryCreates (CleanPipeline r d e).2.log = memoryCreates d.log ∧
    memoryDestroys (CleanPipeline r d e).2.log = memoryDestroys d.log := by
  unfold CleanPipeline
  split <;>
    simp [Device.emit, viewCreates, viewCreatesList, viewDestroys, viewDestroysList,
      bufferCreates, bufferCreatesList, bufferDestroys, bufferDestroysList,
      memoryCreates, memoryCreatesList, memoryDestroys, memoryDestroysList,
      List.filterMap_append]

/-- Pipeline builds touch no view, buffer or memory accounting. -/
theorem measures_CGP (r : VDR) (d : Device) (e : CardboardEye) :
    viewCreates (CreateGraphicsPipeline r d e).2.log = viewCreates d.log ∧
    viewDestroys (CreateGraphicsPipeline r d e).2.log = viewDestroys d.log ∧
    bufferCreates (CreateGraphicsPipeline r d e).2.log = bufferCreates d.log ∧
    bufferDestroys (CreateGraphicsPipeline r d e).2.log = bufferDestroys d.log ∧
    memoryCreates (CreateGraphicsPipeline r d e).2.log = memoryCreates d.log ∧
    memoryDestroys (CreateGraphicsPipeline r d e).2.log = memoryDestroys d.log := by
  unfold CreateGraphicsPipeline CleanPipeline
  dsimp only
  split <;>
    simp [Device.fresh, Device.emit, viewCreates, viewCreatesList, viewDestroys,
      viewDestroysList, bufferCreates, bufferCreatesList, bufferDestroys,
      bufferDestroysList, memoryCreates, memoryCreatesList, memoryDestroys,
      memoryDestroysList, List.filterMap_append]

/-- The uniform-buffer array after a per-eye draw: only the eye's mapped
contents change; the buffer and memory handles are untouched. -/
theorem RDM1_uniform (r : VDR) (d : Device) (desc : CardboardEyeTextureDescription)
    (e : CardboardEye) (i : Nat) :
    (RenderDistortionMesh r d desc e i).1.uniform_buffers_
      = r.uniform_buffers_.set e
          { r.uniform_buffers_.get e with
              data := some ⟨desc.left_u, desc.right_u, desc.top_v, desc.bottom_v⟩ } := by
  unfold RenderDistortionMesh UpdateUniformBuffer
  dsimp only
  rw [CleanTextureImageView_fst]
  simp

/-- Live buffer handles are unchanged by a per-eye draw. -/
theorem liveBuffers_RDM (r : VDR) (d : Device) (desc : CardboardEyeTextureDescription)
    (e : CardboardEye) (i : Nat) :
    liveBuffers (RenderDistortionMesh r d desc e i).1 = liveBuffers r := by
  cases e <;>
    simp [liveBuffers, RDM1_uniform, RDM1_vertex_buffers, RDM1_index_buffers,
      EyePair.set, EyePair.get]

/-- Live memory handles are unchanged by a per-eye draw. -/
theorem liveMemories_RDM (r : VDR) (d : Device) (desc : CardboardEyeTextureDescription)
    (e : CardboardEye) (i : Nat) :
    liveMemories (RenderDistortionMesh r d desc e i).1 = liveMemories r := by
  cases e <;>
    simp [liveMemories, RDM1_uniform, RDM1_vertex_buffers, RDM1_index_buffers,
      EyePair.set, EyePair.get]

/-- Full effect of `SetMesh` on the device and the renderer fields the
resource ledger tracks: two fresh buffer/memory pairs, nothing destroyed. -/
theorem SetMesh_shape (r : VDR) (d : Device) (mesh : CardboardMesh) (e : CardboardEye) :
    (SetMesh r d mesh e).2 =
      { next_handle := d.next_handle + 4,
        log := d.log ++ [.createBuffer d.next_handle, .allocateMemory (d.next_handle + 1),
                         .createBuffer (d.next_handle + 2),
                         .allocateMemory (d.next_handle + 3)] } ∧
    (SetMesh r d mesh e).1.vertex_buffers_
        = r.vertex_buffers_.set e (some ⟨d.next_handle, d.next_handle + 1,
            16 * (meshVertices mesh).length, meshVertices mesh⟩) ∧
    (SetMesh r d mesh e).1.index_buffers_
        = r.index_buffers_.set e (some ⟨d.next_handle + 2, d.next_handle + 3,
            2 * (meshIndices mesh).length, meshIndices mesh⟩) ∧
    (SetMesh r d mesh e).1.uniform_buffers_ = r.uniform_buffers_ ∧
    (SetMesh r d mesh e).1.image_views_ = r.image_views_ ∧
    (SetMesh r d mesh e).1.swapchain_views_ = r.swapchain_views_ ∧
    (SetMesh r d mesh e).1.swapchain_image_count_ = r.swapchain_image_count_ := by
  refine ⟨?_, ?_, ?_, ?_, ?_, ?_, ?_⟩ <;>
    cases e <;>
      simp [SetMesh, CreateVertexBuffer, CreateIndexBuffer, CreateBuffer,
        Device.fresh, EyePair.set, EyePair.get, Nat.add_assoc]

/-- One eye's cached-view multiset. -/
def rowViews (r : VDR) (e : CardboardEye) : Multiset Handle :=
  ↑((r.image_views_.get e).filterMap id)

/-- `liveViews` split at a chosen eye. -/
theorem liveViews_split (r : VDR) (e : CardboardEye) :
    liveViews r = ↑r.swapchain_views_ + rowViews r e + rowViews r e.other := by
  cases e
  · rfl
  · simp only [liveViews, rowViews, CardboardEye.other]
    abel

/-- A per-eye draw preserves the resource ledger invariant. -/
theorem ResInv_RDM (r : VDR) (d : Device) (desc : CardboardEyeTextureDescription)
    (eye : CardboardEye) (idx : Nat) (hInv : ResInv r d)
    (hidx : idx < r.swapchain_image_count_) :
    ResInv (RenderDistortionMesh r d desc eye idx).1
      (RenderDistortionMesh r d desc eye idx).2.1 := by
  have hlen : idx < (r.image_views_.get eye).length := by
    cases eye
    · rw [hInv.ivl_len]
      exact hidx
    · rw [hInv.ivr_len]
      exact hidx
  have key := filterMap_id_set_multiset (r.image_views_.get eye) idx
    (some d.next_handle) hlen
  rcases hcase : (r.image_views_.get eye).getD idx none with _ | o
  · obtain ⟨hdev, hiv⟩ := RDM_dev_none r d desc eye idx hcase
    rw [hcase] at key
    simp only [Option.toList, Multiset.coe_nil, add_zero, Multiset.coe_singleton] at key
    have hrow_same : rowViews (RenderDistortionMesh r d desc eye idx).1 eye
        = ↑(((r.image_views_.get eye).set idx (some d.next_handle)).filterMap id) := by
      simp [rowViews, hiv]
    have hrow_other : rowViews (RenderDistortionMesh r d desc eye idx).1 eye.other
        = rowViews r eye.other := by
      cases eye <;>
        simp [rowViews, hiv, EyePair.set, EyePair.get, CardboardEye.other]
    refine ⟨?_, ?_, ?_, ?_, ?_, ?_⟩
    · rw [liveViews_split _ eye, hrow_same, hrow_other, hdev]
      have hc : viewCreates (d.log ++ [DeviceEvent.createImageView d.next_handle])
          = viewCreates d.log + {d.next_handle} := by
        simp [viewCreates, viewCreatesList, List.filterMap_append,
          ← Multiset.coe_add, Multiset.coe_singleton]
      have hd : viewDestroys (d.log ++ [DeviceEvent.createImageView d.next_handle])
          = viewDestroys d.log := by
        simp [viewDestroys, viewDestroysList, List.filterMap_append]
      rw [hc, hd, hInv.views, liveViews_split _ eye, RDM1_swapchain_views]
      simp only [rowViews]
      rw [key]
      abel
    · rw [hdev]
      have hbc : bufferCreates (d.log ++ [DeviceEvent.createImageView d.next_handle])
          = bufferCreates d.log := by
        simp [bufferCreates, bufferCreatesList, List.filterMap_append]
      have hbd : bufferDestroys (d.log ++ [DeviceEvent.createImageView d.next_handle])
          = bufferDestroys d.log := by
        simp [bufferDestroys, bufferDestroysList, List.filterMap_append]
      rw [hbc, hbd, liveBuffers_RDM]
      exact hInv.bufs
    · rw [hdev]
      have hmc : memoryCreates (d.log ++ [DeviceEvent.createImageView d.next_handle])
          = memoryCreates d.log := by
        simp [memoryCreates, memoryCreatesList, List.filterMap_append]
      have hmd : memoryDestroys (d.log ++ [DeviceEvent.createImageView d.next_handle])
          = memoryDestroys d.log := by
        simp [memoryDestroys, memoryDestroysList, List.filterMap_append]
      rw [hmc, hmd, liveMemories_RDM]
      exact hInv.mems
    · rw [RDM1_swapchain_views, RDM1_count]
      exact hInv.sv_len
    · rw [RDM1_count]
      cases eye <;> simp [hiv, EyePair.set, EyePair.get, List.length_set] <;>
        first
        | exact hInv.ivl_len
        | exact hInv.ivr_len
    · rw [RDM1_count]
      cases eye <;> simp [hiv, EyePair.set, EyePair.get, List.length_set] <;>
        first
        | exact hInv.ivl_len
        | exact hInv.ivr_len
  · obtain ⟨hdev, hiv⟩ := RDM_dev_some r d desc eye idx o hcase
    rw [hcase] at key
    simp only [Option.toList, Multiset.coe_singleton] at key
    have hrow_same : rowViews (RenderDistortionMesh r d desc eye idx).1 eye
        = ↑(((r.image_views_.get eye).set idx (some d.next_handle)).filterMap id) := by
      simp [rowViews, hiv]
    have hrow_other : rowViews (RenderDistortionMesh r d desc eye idx).1 eye.other
        = rowViews r eye.other := by
      cases eye <;>
        simp [rowViews, hiv, EyePair.set, EyePair.get, CardboardEye.other]
    refine ⟨?_, ?_, ?_, ?_, ?_, ?_⟩
    · rw [liveViews_split _ eye, hrow_same, hrow_other, hdev]
      have hc : viewCreates (d.log ++ [DeviceEvent.destroyImageView o,
            DeviceEvent.createImageView d.next_handle])
          = viewCreates d.log + {d.next_handle} := by
        simp [viewCreates, viewCreatesList, List.filterMap_append,
          ← Multiset.coe_add, Multiset.coe_singleton]
      have hd : viewDestroys (d.log ++ [DeviceEvent.destroyImageView o,
            DeviceEvent.createImageView d.next_handle])
          = viewDestroys d.log + {o} := by
        simp [viewDestroys, viewDestroysList, List.filterMap_append,
          ← Multiset.coe_add, Multiset.coe_singleton]
      rw [hc, hd, hInv.views, liveViews_split _ eye, RDM1_swapchain_views]
      simp only [rowViews]
      set D := viewDestroys d.log
      set S : Multiset Handle := ↑r.swapchain_views_
      set A : Multiset Handle := ↑(List.filterMap id (r.image_views_.get eye))
      set B : Multiset Handle :=
        ↑(List.filterMap id ((r.image_views_.get eye).set idx (some d.next_handle)))
      set O : Multiset Handle := ↑(List.filterMap id (r.image_views_.get eye.other))
      calc D + (S + A + O) + {d.next_handle}
          = D + (S + O) + (A + {d.next_handle}) := by abel
        _ = D + (S + O) + (B + {o}) := by rw [key]
        _ = D + {o} + (S + B + O) := by abel
    · rw [hdev]
      have hbc : bufferCreates (d.log ++ [DeviceEvent.destroyImageView o,
            DeviceEvent.createImageView d.next_handle])
          = bufferCreates d.log := by
        simp [bufferCreates, bufferCreatesList, List.filterMap_append]
      have hbd : bufferDestroys (d.log ++ [DeviceEvent.destroyImageView o,
            DeviceEvent.createImageView d.next_handle])
          = bufferDestroys d.log := by
        simp [bufferDestroys, bufferDestroysList, List.filterMap_append]
      rw [hbc, hbd, liveBuffers_RDM]
      exact hInv.bufs
    · rw [hdev]
      have hmc : memoryCreates (d.log ++ [DeviceEvent.destroyImageView o,
            DeviceEvent.createImageView d.next_handle])
          = memoryCreates d.log := by
        simp [memoryCreates, memoryCreatesList, List.filterMap_append]
      have hmd : memoryDestroys (d.log ++ [DeviceEvent.destroyImageView o,
            DeviceEvent.createImageView d.next_handle])
          = memoryDestroys d.log := by
        simp [memoryDestroys, memoryDestroysList, List.filterMap_append]
      rw [hmc, hmd, liveMemories_RDM]
      exact hInv.mems
    · rw [RDM1_swapchain_views, RDM1_count]
      exact hInv.sv_len
    · rw [RDM1_count]
      cases eye <;> simp [hiv, EyePair.set, EyePair.get, List.length_set] <;>
        first
        | exact hInv.ivl_len
        | exact hInv.ivr_len
    · rw [RDM1_count]
      cases eye <;> simp [hiv, EyePair.set, EyePair.get, List.length_set] <;>
        first
        | exact hInv.ivl_len
        | exact hInv.ivr_len

/-- Updating the cached render pass and draw-region size preserves the
ledger invariant. -/
theorem ResInv_fields (r : VDR) (d : Device) (c : Option Handle) (a b : Nat)
    (h : ResInv r d) :
    ResInv { r with current_render_pass_ := c,
                    current_image_width_ := a, current_image_height_ := b } d :=
  ⟨h.views, h.bufs, h.mems, h.sv_len, h.ivl_len, h.ivr_len⟩

/-- Viewport/scissor updates preserve the ledger invariant. -/
theorem ResInv_UVS (r : VDR) (d : Device) (e : CardboardEye) (x y : Int)
    (h : ResInv r d) : ResInv (UpdateViewportAndScissor r e x y) d := by
  rw [UpdateViewportAndScissor_eq]
  exact ⟨h.views, h.bufs, h.mems, h.sv_len, h.ivl_len, h.ivr_len⟩

/-- Live views are unchanged by a pipeline build. -/
theorem liveViews_CGP (r : VDR) (d : Device) (e : CardboardEye) :
    liveViews (CreateGraphicsPipeline r d e).1 = liveViews r := by
  simp [liveViews, CGP1_image_views, CGP1_swapchain_views]

/-- Live buffers are unchanged by a pipeline build. -/
theorem liveBuffers_CGP (r : VDR) (d : Device) (e : CardboardEye) :
    liveBuffers (CreateGraphicsPipeline r d e).1 = liveBuffers r := by
  simp [liveBuffers, CGP1_uniform_buffers, CGP1_vertex_buffers, CGP1_index_buffers]

/-- Live memories are unchanged by a pipeline build. -/
theorem liveMemories_CGP (r : VDR) (d : Device) (e : CardboardEye) :
    liveMemories (CreateGraphicsPipeline r d e).1 = liveMemories r := by
  simp [liveMemories, CGP1_uniform_buffers, CGP1_vertex_buffers, CGP1_index_buffers]

/-- A pipeline build preserves the ledger invariant. -/
theorem ResInv_CGP (r : VDR) (d : Device) (e : CardboardEye) (h : ResInv r d) :
    ResInv (CreateGraphicsPipeline r d e).1 (CreateGraphicsPipeline r d e).2 := by
  obtain ⟨m1, m2, m3, m4, m5, m6⟩ := measures_CGP r d e
  refine ⟨?_, ?_, ?_, ?_, ?_, ?_⟩
  · rw [m1, m2, liveViews_CGP]
    exact h.views
  · rw [m3, m4, liveBuffers_CGP]
    exact h.bufs
  · rw [m5, m6, liveMemories_CGP]
    exact h.mems
  · rw [CGP1_swapchain_views, CGP1_count]
    exact h.sv_len
  · rw [CGP1_image_views, CGP1_count]
    exact h.ivl_len
  · rw [CGP1_image_views, CGP1_count]
    exact h.ivr_len

/-- A whole frame preserves the ledger invariant. -/
theorem ResInv_RETD (r : VDR) (d : Device)
    (target : CardboardVulkanDistortionRendererTarget) (x y w h : Int)
    (l rgt : CardboardEyeTextureDescription) (hInv : ResInv r d) :
    ResInv (RenderEyeToDisplay r d target x y w h l rgt).1
      (RenderEyeToDisplay r d target x y w h l rgt).2.1 := by
  unfold RenderEyeToDisplay
  dsimp only
  split
  · exact hInv
  · next hc =>
    split
    · refine ResInv_RDM _ _ _ _ _ (ResInv_UVS _ _ _ _ _
        (ResInv_RDM _ _ _ _ _ (ResInv_UVS _ _ _ _ _
          (ResInv_CGP _ _ _ (ResInv_CGP _ _ _ (ResInv_fields _ _ _ _ _ hInv)))) ?_)) ?_
      · simp
        omega
      · simp
        omega
    · refine ResInv_RDM _ _ _ _ _ (ResInv_UVS _ _ _ _ _
        (ResInv_RDM _ _ _ _ _ (ResInv_UVS _ _ _ _ _
          (ResInv_fields _ _ _ _ _ hInv)) ?_)) ?_
      · simp
        omega
      · simp
        omega

/-- A frame sequence preserves the ledger invariant. -/
theorem ResInv_runFrames (fs : List FrameInput) :
    ∀ (s : VDR × Device), ResInv s.1 s.2 → ResInv (runFrames s fs).1 (runFrames s fs).2 := by
  induction fs with
  | nil => intro s h; exact h
  | cons f t ih =>
      intro s h
      obtain ⟨r, d⟩ := s
      exact ih _ (ResInv_RETD r d f.target f.x f.y f.width f.height
        f.left_eye f.right_eye h)

/-- `SetMesh` on an eye whose buffers were never assigned preserves the
ledger invariant: the two fresh buffer/memory pairs enter the live set. -/
theorem ResInv_SetMesh_fresh (r : VDR) (d : Device) (mesh : CardboardMesh)
    (e : CardboardEye) (hInv : ResInv r d)
    (hv : r.vertex_buffers_.get e = none) (hi : r.index_buffers_.get e = none) :
    ResInv (SetMesh r d mesh e).1 (SetMesh r d mesh e).2 := by
  obtain ⟨hdev, hvb, hib, hub, hiv, hsv, hcnt⟩ := SetMesh_shape r d mesh e
  have hlog : (SetMesh r d mesh e).2.log
      = d.log ++ [.createBuffer d.next_handle, .allocateMemory (d.next_handle + 1),
                  .createBuffer (d.next_handle + 2),
                  .allocateMemory (d.next_handle + 3)] := by
    rw [hdev]
  refine ⟨?_, ?_, ?_, ?_, ?_, ?_⟩
  · rw [hlog]
    have h1 : viewCreates (d.log ++ [.createBuffer d.next_handle,
          .allocateMemory (d.next_handle + 1), .createBuffer (d.next_handle + 2),
          .allocateMemory (d.next_handle + 3)]) = viewCreates d.log := by
      simp [viewCreates, viewCreatesList, List.filterMap_append]
    have h2 : viewDestroys (d.log ++ [.createBuffer d.next_handle,
          .allocateMemory (d.next_handle + 1), .createBuffer (d.next_handle + 2),
          .allocateMemory (d.next_handle + 3)]) = viewDestroys d.log := by
      simp [viewDestroys, viewDestroysList, List.filterMap_append]
    have h3 : liveViews (SetMesh r d mesh e).1 = liveViews r := by
      simp [liveViews, hiv, hsv]
    rw [h1, h2, h3]
    exact hInv.views
  · rw [hlog]
    have h1 : bufferCreates (d.log ++ [.createBuffer d.next_handle,
          .allocateMemory (d.next_handle + 1), .createBuffer (d.next_handle + 2),
          .allocateMemory (d.next_handle + 3)])
        = bufferCreates d.log + ↑([d.next_handle, d.next_handle + 2] : List Handle) := by
      simp only [bufferCreates, bufferCreatesList, List.filterMap_append,
        ← Multiset.coe_add]
      rfl
    have h2 : bufferDestroys (d.log ++ [.createBuffer d.next_handle,
          .allocateMemory (d.next_handle + 1), .createBuffer (d.next_handle + 2),
          .allocateMemory (d.next_handle + 3)]) = bufferDestroys d.log := by
      simp [bufferDestroys, bufferDestroysList, List.filterMap_append]
    have h3 : liveBuffers (SetMesh r d mesh e).1
        = liveBuffers r + ↑([d.next_handle, d.next_handle + 2] : List Handle) := by
      cases e
      · have hv' : r.vertex_buffers_.l = none := hv
        have hi' : r.index_buffers_.l = none := hi
        simp [liveBuffers, hvb, hib, hub, optHandle, EyePair.set, EyePair.get,
          hv', hi', ← Multiset.singleton_add, ← Multiset.coe_add,
          ← Multiset.cons_coe]
        try abel
      · have hv' : r.vertex_buffers_.r = none := hv
        have hi' : r.index_buffers_.r = none := hi
        simp [liveBuffers, hvb, hib, hub, optHandle, EyePair.set, EyePair.get,
          hv', hi', ← Multiset.singleton_add, ← Multiset.coe_add,
          ← Multiset.cons_coe]
        try abel
    rw [h1, h2, h3, hInv.bufs]
    abel
  · rw [hlog]
    have h1 : memoryCreates (d.log ++ [.createBuffer d.next_handle,
          .allocateMemory (d.next_handle + 1), .createBuffer (d.next_handle + 2),
          .allocateMemory (d.next_handle + 3)])
        = memoryCreates d.log + ↑([d.next_handle + 1, d.next_handle + 3] : List Handle) := by
      simp only [memoryCreates, memoryCreatesList, List.filterMap_append,
        ← Multiset.coe_add]
      rfl
    have h2 : memoryDestroys (d.log ++ [.createBuffer d.next_handle,
          .allocateMemory (d.next_handle + 1), .createBuffer (d.next_handle + 2),
          .allocateMemory (d.next_handle + 3)]) = memoryDestroys d.log := by
      simp [memoryDestroys, memoryDestroysList, List.filterMap_append]
    have h3 : liveMemories (SetMesh r d mesh e).1
        = liveMemories r + ↑([d.next_handle + 1, d.next_handle + 3] : List Handle) := by
      cases e
      · have hv' : r.vertex_buffers_.l = none := hv
        have hi' : r.index_buffers_.l = none := hi
        simp [liveMemories, hvb, hib, hub, optHandle, EyePair.set, EyePair.get,
          hv', hi', ← Multiset.singleton_add, ← Multiset.coe_add,
          ← Multiset.cons_coe]
        try abel
      · have hv' : r.vertex_buffers_.r = none := hv
        have hi' : r.index_buffers_.r = none := hi
        simp [liveMemories, hvb, hib, hub, optHandle, EyePair.set, EyePair.get,
          hv', hi', ← Multiset.singleton_add, ← Multiset.coe_add,
          ← Multiset.cons_coe]
        try abel
    rw [h1, h2, h3, hInv.mems]
    abel
  · rw [hsv, hcnt]
    exact hInv.sv_len
  · rw [hiv, hcnt]
    exact hInv.ivl_len
  · rw [hiv, hcnt]
    exact hInv.ivr_len

@[simp] theorem Device.fresh_fst (d : Device) (mk : Handle → DeviceEvent) :
    (d.fresh mk).1 = d.next_handle := rfl

@[simp] theorem Device.fresh_log (d : Device) (mk : Handle → DeviceEvent) :
    (d.fresh mk).2.log = d.log ++ [mk d.next_handle] := rfl

@[simp] theorem Device.fresh_next (d : Device) (mk : Handle → DeviceEvent) :
    (d.fresh mk).2.next_handle = d.next_handle + 1 := rfl

@[simp] theorem CUB_fst (d : Device) :
    (CreateUniformBuffers d).1 = ⟨d.next_handle, d.next_handle + 1, none⟩ := rfl

@[simp] theorem CUB_log (d : Device) :
    (CreateUniformBuffers d).2.log
      = d.log ++ [DeviceEvent.createBuffer d.next_handle,
                  DeviceEvent.allocateMemory (d.next_handle + 1)] := by
  simp [CreateUniformBuffers, CreateBuffer, Device.fresh, List.append_assoc]

@[simp] theorem CUB_next (d : Device) :
    (CreateUniformBuffers d).2.next_handle = d.next_handle + 2 := rfl

/-- Device trace and handles of the swapchain-view creation loop. -/
theorem csv_spec (n : Nat) : ∀ d : Device,
    (createSwapchainViews d n).2.log
        = d.log ++ ((createSwapchainViews d n).1).map DeviceEvent.createImageView ∧
    (createSwapchainViews d n).2.next_handle = d.next_handle + n ∧
    (createSwapchainViews d n).1.length = n := by
  induction n with
  | zero => intro d; simp [createSwapchainViews]
  | succ k ih =>
      intro d
      obtain ⟨h1, h2, h3⟩ := ih (d.fresh .createImageView).2
      refine ⟨?_, ?_, ?_⟩
      · rw [show (createSwapchainViews d (k + 1)).2.log
            = (createSwapchainViews (d.fresh .createImageView).2 k).2.log from rfl, h1]
        rw [show (createSwapchainViews d (k + 1)).1
            = (d.fresh .createImageView).1
                :: (createSwapchainViews (d.fresh .createImageView).2 k).1 from rfl]
        simp [List.append_assoc]
      · rw [show (createSwapchainViews d (k + 1)).2.next_handle
            = (createSwapchainViews (d.fresh .createImageView).2 k).2.next_handle from rfl,
          h2]
        simp
        omega
      · rw [show (createSwapchainViews d (k + 1)).1
            = (d.fresh .createImageView).1
                :: (createSwapchainViews (d.fresh .createImageView).2 k).1 from rfl]
        simp [h3]

@[simp] theorem csv_log (d : Device) (n : Nat) :
    (createSwapchainViews d n).2.log
      = d.log ++ ((createSwapchainViews d n).1).map DeviceEvent.createImageView :=
  (csv_spec n d).1

@[simp] theorem csv_len (d : Device) (n : Nat) :
    (createSwapchainViews d n).1.length = n :=
  (csv_spec n d).2.2

/-- Descriptor-set allocation consumes handles but logs nothing. -/
theorem ads_spec (n : Nat) : ∀ d : Device,
    (allocDescriptorSets d n).2.log = d.log ∧
    (allocDescriptorSets d n).2.next_handle = d.next_handle + n := by
  induction n with
  | zero => intro d; simp [allocDescriptorSets]
  | succ k ih =>
      intro d
      obtain ⟨h1, h2⟩ := ih { d with next_handle := d.next_handle + 1 }
      constructor
      · rw [show (allocDescriptorSets d (k + 1)).2.log
            = (allocDescriptorSets { d with next_handle := d.next_handle + 1 } k).2.log
              from rfl, h1]
      · rw [show (allocDescriptorSets d (k + 1)).2.next_handle
            = (allocDescriptorSets { d with next_handle := d.next_handle + 1 } k).2.next_handle
              from rfl, h2]
        dsimp only
        omega

@[simp] theorem ads_log (d : Device) (n : Nat) :
    (allocDescriptorSets d n).2.log = d.log :=
  (ads_spec n d).1

/-- The constructor's device log, expressed through the constructed
renderer's own handles. -/
theorem construct_spec (n h0 : Nat) :
    (constructRenderer n ⟨h0, []⟩).2.log
      = [DeviceEvent.createDescriptorSetLayout
            (constructRenderer n ⟨h0, []⟩).1.descriptor_set_layout_,
         DeviceEvent.createPipelineLayout (constructRenderer n ⟨h0, []⟩).1.pipeline_layout_,
         DeviceEvent.createSampler (constructRenderer n ⟨h0, []⟩).1.texture_sampler_]
        ++ (constructRenderer n ⟨h0, []⟩).1.swapchain_views_.map DeviceEvent.createImageView
        ++ [DeviceEvent.createDescriptorPool
              ((constructRenderer n ⟨h0, []⟩).1.descriptor_pool_.get .kLeft),
            DeviceEvent.createBuffer
              (((constructRenderer n ⟨h0, []⟩).1.uniform_buffers_.get .kLeft).buffer),
            DeviceEvent.allocateMemory
              (((constructRenderer n ⟨h0, []⟩).1.uniform_buffers_.get .kLeft).memory),
            DeviceEvent.createDescriptorPool
              ((constructRenderer n ⟨h0, []⟩).1.descriptor_pool_.get .kRight),
            DeviceEvent.createBuffer
              (((constructRenderer n ⟨h0, []⟩).1.uniform_buffers_.get .kRight).buffer),
            DeviceEvent.allocateMemory
              (((constructRenderer n ⟨h0, []⟩).1.uniform_buffers_.get .kRight).memory)] := by
  unfold constructRenderer
  dsimp only
  simp [EyePair.get, List.append_assoc]

/-- Classification of a pure swapchain-view creation run. -/
theorem measures_map_create (l : List Handle) :
    viewCreatesList (l.map DeviceEvent.createImageView) = l ∧
    viewDestroysList (l.map DeviceEvent.createImageView) = [] ∧
    bufferCreatesList (l.map DeviceEvent.createImageView) = [] ∧
    bufferDestroysList (l.map DeviceEvent.createImageView) = [] ∧
    memoryCreatesList (l.map DeviceEvent.createImageView) = [] ∧
    memoryDestroysList (l.map DeviceEvent.createImageView) = [] := by
  induction l with
  | nil => exact ⟨rfl, rfl, rfl, rfl, rfl, rfl⟩
  | cons a t ih =>
      obtain ⟨i1, i2, i3, i4, i5, i6⟩ := ih
      refine ⟨?_, ?_, ?_, ?_, ?_, ?_⟩ <;>
        simp [viewCreatesList, viewDestroysList, bufferCreatesList, bufferDestroysList,
          memoryCreatesList, memoryDestroysList, List.filterMap_cons] at * <;>
        assumption

/-! Measure evaluation helpers for the constructor and destructor logs. -/

theorem viewCreates_append (l1 l2 : List DeviceEvent) :
    viewCreates (l1 ++ l2) = viewCreates l1 + viewCreates l2 := by
  simp [viewCreates, viewCreatesList, List.filterMap_append, ← Multiset.coe_add]

theorem viewDestroys_append (l1 l2 : List DeviceEvent) :
    viewDestroys (l1 ++ l2) = viewDestroys l1 + viewDestroys l2 := by
  simp [viewDestroys, viewDestroysList, List.filterMap_append, ← Multiset.coe_add]

theorem bufferCreates_append (l1 l2 : List DeviceEvent) :
    bufferCreates (l1 ++ l2) = bufferCreates l1 + bufferCreates l2 := by
  simp [bufferCreates, bufferCreatesList, List.filterMap_append, ← Multiset.coe_add]

theorem bufferDestroys_append (l1 l2 : List DeviceEvent) :
    bufferDestroys (l1 ++ l2) = bufferDestroys l1 + bufferDestroys l2 := by
  simp [bufferDestroys, bufferDestroysList, List.filterMap_append, ← Multiset.coe_add]

theorem memoryCreates_append (l1 l2 : List DeviceEvent) :
    memoryCreates (l1 ++ l2) = memoryCreates l1 + memoryCreates l2 := by
  simp [memoryCreates, memoryCreatesList, List.filterMap_append, ← Multiset.coe_add]

theorem memoryDestroys_append (l1 l2 : List DeviceEvent) :
    memoryDestroys (l1 ++ l2) = memoryDestroys l1 + memoryDestroys l2 := by
  simp [memoryDestroys, memoryDestroysList, List.filterMap_append, ← Multiset.coe_add]

theorem viewCreates_ctor3 (a b c : Handle) :
    viewCreates [DeviceEvent.createDescriptorSetLayout a, DeviceEvent.createPipelineLayout b,
        DeviceEvent.createSampler c] = 0 := rfl

theorem viewDestroys_ctor3 (a b c : Handle) :
    viewDestroys [DeviceEvent.createDescriptorSetLayout a, DeviceEvent.createPipelineLayout b,
        DeviceEvent.createSampler c] = 0 := rfl

theorem bufferCreates_ctor3 (a b c : Handle) :
    bufferCreates [DeviceEvent.createDescriptorSetLayout a, DeviceEvent.createPipelineLayout b,
        DeviceEvent.createSampler c] = 0 := rfl

theorem bufferDestroys_ctor3 (a b c : Handle) :
    bufferDestroys [DeviceEvent.createDescriptorSetLayout a, DeviceEvent.createPipelineLayout b,
        DeviceEvent.createSampler c] = 0 := rfl

theorem memoryCreates_ctor3 (a b c : Handle) :
    memoryCreates [DeviceEvent.createDescriptorSetLayout a, DeviceEvent.createPipelineLayout b,
        DeviceEvent.createSampler c] = 0 := rfl

theorem memoryDestroys_ctor3 (a b c : Handle) :
    memoryDestroys [DeviceEvent.createDescriptorSetLayout a, DeviceEvent.createPipelineLayout b,
        DeviceEvent.createSampler c] = 0 := rfl

theorem viewCreates_tail6 (p1 b1 m1 p2 b2 m2 : Handle) :
    viewCreates [DeviceEvent.createDescriptorPool p1, DeviceEvent.createBuffer b1,
        DeviceEvent.allocateMemory m1, DeviceEvent.createDescriptorPool p2,
        DeviceEvent.createBuffer b2, DeviceEvent.allocateMemory m2]
      = 0 := rfl

theorem viewDestroys_tail6 (p1 b1 m1 p2 b2 m2 : Handle) :
    viewDestroys [DeviceEvent.createDescriptorPool p1, DeviceEvent.createBuffer b1,
        DeviceEvent.allocateMemory m1, DeviceEvent.createDescriptorPool p2,
        DeviceEvent.createBuffer b2, DeviceEvent.allocateMemory m2]
      = 0 := rfl

theorem bufferCreates_tail6 (p1 b1 m1 p2 b2 m2 : Handle) :
    bufferCreates [DeviceEvent.createDescriptorPool p1, DeviceEvent.createBuffer b1,
        DeviceEvent.allocateMemory m1, DeviceEvent.createDescriptorPool p2,
        DeviceEvent.createBuffer b2, DeviceEvent.allocateMemory m2]
      = ↑([b1, b2] : List Handle) := rfl

theorem bufferDestroys_tail6 (p1 b1 m1 p2 b2 m2 : Handle) :
    bufferDestroys [DeviceEvent.createDescriptorPool p1, DeviceEvent.createBuffer b1,
        DeviceEvent.allocateMemory m1, DeviceEvent.createDescriptorPool p2,
        DeviceEvent.createBuffer b2, DeviceEvent.allocateMemory m2]
      = 0 := rfl

theorem memoryCreates_tail6 (p1 b1 m1 p2 b2 m2 : Handle) :
    memoryCreates [DeviceEvent.createDescriptorPool p1, DeviceEvent.createBuffer b1,
        DeviceEvent.allocateMemory m1, DeviceEvent.createDescriptorPool p2,
        DeviceEvent.createBuffer b2, DeviceEvent.allocateMemory m2]
      = ↑([m1, m2] : List Handle) := rfl

theorem memoryDestroys_tail6 (p1 b1 m1 p2 b2 m2 : Handle) :
    memoryDestroys [DeviceEvent.createDescriptorPool p1, DeviceEvent.createBuffer b1,
        DeviceEvent.allocateMemory m1, DeviceEvent.createDescriptorPool p2,
        DeviceEvent.createBuffer b2, DeviceEvent.allocateMemory m2]
      = 0 := rfl

theorem viewCreates_map_create (l : List Handle) :
    viewCreates (l.map DeviceEvent.createImageView) = (↑l : Multiset Handle) := by
  rw [viewCreates, (measures_map_create l).1]

theorem viewDestroys_map_create (l : List Handle) :
    viewDestroys (l.map DeviceEvent.createImageView) = 0 := by
  rw [viewDestroys, (measures_map_create l).2.1]
  rfl

theorem bufferCreates_map_create (l : List Handle) :
    bufferCreates (l.map DeviceEvent.createImageView) = 0 := by
  rw [bufferCreates, (measures_map_create l).2.2.1]
  rfl

theorem bufferDestroys_map_create (l : List Handle) :
    bufferDestroys (l.map DeviceEvent.createImageView) = 0 := by
  rw [bufferDestroys, (measures_map_create l).2.2.2.1]
  rfl

theorem memoryCreates_map_create (l : List Handle) :
    memoryCreates (l.map DeviceEvent.createImageView) = 0 := by
  rw [memoryCreates, (measures_map_create l).2.2.2.2.1]
  rfl

theorem memoryDestroys_map_create (l : List Handle) :
    memoryDestroys (l.map DeviceEvent.createImageView) = 0 := by
  rw [memoryDestroys, (measures_map_create l).2.2.2.2.2]
  rfl

/-- The constructor establishes the resource ledger invariant. -/
theorem ResInv_construct (n h0 : Nat) :
    ResInv (constructRenderer n ⟨h0, []⟩).1 (constructRenderer n ⟨h0, []⟩).2 := by
  have hlog := construct_spec n h0
  have hiv : (constructRenderer n ⟨h0, []⟩).1.image_views_
      = ⟨List.replicate n none, List.replicate n none⟩ := rfl
  have hvb : (constructRenderer n ⟨h0, []⟩).1.vertex_buffers_ = ⟨none, none⟩ := rfl
  have hib : (constructRenderer n ⟨h0, []⟩).1.index_buffers_ = ⟨none, none⟩ := rfl
  have hcount : (constructRenderer n ⟨h0, []⟩).1.swapchain_image_count_ = n := rfl
  have hsvlen : (constructRenderer n ⟨h0, []⟩).1.swapchain_views_.length = n := by
    unfold constructRenderer
    dsimp only
    simp
  refine ⟨?_, ?_, ?_, ?_, ?_, ?_⟩
  · rw [hlog]
    rw [viewCreates_append, viewCreates_append, viewDestroys_append, viewDestroys_append,
      viewCreates_ctor3, viewCreates_tail6, viewDestroys_ctor3, viewDestroys_tail6,
      viewCreates_map_create, viewDestroys_map_create]
    simp [liveViews, hiv, filterMap_id_replicate_none, EyePair.get]
  · rw [hlog]
    rw [bufferCreates_append, bufferCreates_append, bufferDestroys_append,
      bufferDestroys_append, bufferCreates_ctor3, bufferCreates_tail6,
      bufferDestroys_ctor3, bufferDestroys_tail6, bufferCreates_map_create,
      bufferDestroys_map_create]
    simp [liveBuffers, optHandle, hvb, hib, EyePair.get,
      ← Multiset.singleton_add, ← Multiset.coe_add, ← Multiset.cons_coe]
  · rw [hlog]
    rw [memoryCreates_append, memoryCreates_append, memoryDestroys_append,
      memoryDestroys_append, memoryCreates_ctor3, memoryCreates_tail6,
      memoryDestroys_ctor3, memoryDestroys_tail6, memoryCreates_map_create,
      memoryDestroys_map_create]
    simp [liveMemories, optHandle, hvb, hib, EyePair.get,
      ← Multiset.singleton_add, ← Multiset.coe_add, ← Multiset.cons_coe]
  · rw [hcount]
    exact hsvlen
  · rw [hiv, hcount]
    simp [EyePair.get]
  · rw [hiv, hcount]
    simp [EyePair.get]

/-- `viewDestroys` distributes over a flatMap of per-slot event lists. -/
theorem viewDestroys_flatMap (l : List Nat) (f : Nat → List DeviceEvent) :
    viewDestroys (l.flatMap f) = (l.map fun i => viewDestroys (f i)).sum := by
  induction l with
  | nil => rfl
  | cons a t ih =>
      rw [List.flatMap_cons, viewDestroys_append, ih, List.map_cons, List.sum_cons]

/-- Sums of pointwise three-part maps split. -/
theorem sum_map_add3 {β : Type} [AddCommMonoid β] (l : List Nat) (f g h : Nat → β) :
    (l.map fun i => f i + g i + h i).sum
      = (l.map f).sum + (l.map g).sum + (l.map h).sum := by
  induction l with
  | nil => simp
  | cons a t ih =>
      simp only [List.map_cons, List.sum_cons, ih]
      abel

/-- The view destructions of one destructor slot iteration. -/
theorem viewDestroys_slot (a b : List (Option Handle)) (s : List Handle) (i : Nat) :
    viewDestroys
      ((match a.getD i none with
        | some v => [DeviceEvent.destroyImageView v]
        | none => []) ++
       (match b.getD i none with
        | some v => [DeviceEvent.destroyImageView v]
        | none => []) ++
       [DeviceEvent.destroyImageView (s.getD i 0)])
      = ↑((a.getD i none).toList) + ↑((b.getD i none).toList) + {s.getD i 0} := by
  rcases ha : a.getD i none with _ | va <;> rcases hb : b.getD i none with _ | vb <;>
    simp [viewDestroys, viewDestroysList, List.filterMap_append,
      ← Multiset.coe_add, ← Multiset.cons_coe]

/-- The destructor's per-slot loop destroys exactly the live image views. -/
theorem viewDestroys_slotEvents (r : VDR)
    (h1 : (r.image_views_.get .kLeft).length = r.swapchain_image_count_)
    (h2 : (r.image_views_.get .kRight).length = r.swapchain_image_count_)
    (h3 : r.swapchain_views_.length = r.swapchain_image_count_) :
    viewDestroys (destructorSlotEvents r) = liveViews r := by
  unfold destructorSlotEvents
  rw [viewDestroys_flatMap]
  simp only [viewDestroys_slot]
  rw [sum_map_add3]
  have s1 : ((List.range r.swapchain_image_count_).map fun i =>
      (↑(((r.image_views_.get .kLeft).getD i none).toList) : Multiset Handle)).sum
      = ↑((r.image_views_.get .kLeft).filterMap id) := by
    rw [← h1]
    exact sum_getD_toList _
  have s2 : ((List.range r.swapchain_image_count_).map fun i =>
      (↑(((r.image_views_.get .kRight).getD i none).toList) : Multiset Handle)).sum
      = ↑((r.image_views_.get .kRight).filterMap id) := by
    rw [← h2]
    exact sum_getD_toList _
  have s3 : ((List.range r.swapchain_image_count_).map fun i =>
      ({r.swapchain_views_.getD i 0} : Multiset Handle)).sum
      = ↑r.swapchain_views_ := by
    rw [← h3]
    exact sum_getD_singleton _ _
  rw [s1, s2, s3]
  simp only [liveViews]
  abel

/-- Every destructor slot event is an image-view destruction. -/
theorem mem_slotEvents (r : VDR) (e : DeviceEvent)
    (he : e ∈ destructorSlotEvents r) : ∃ h, e = DeviceEvent.destroyImageView h := by
  simp only [destructorSlotEvents, List.mem_flatMap] at he
  obtain ⟨i, _, hi⟩ := he
  rcases ha : (r.image_views_.get .kLeft).getD i none with _ | va <;>
    rcases hb : (r.image_views_.get .kRight).getD i none with _ | vb <;>
    rw [ha, hb] at hi <;>
    simp only [List.mem_append, List.mem_singleton, List.mem_cons,
      List.not_mem_nil, or_false, false_or, List.nil_append] at hi <;>
    first
    | (rcases hi with ((rfl | rfl) | rfl) <;> exact ⟨_, rfl⟩)
    | (rcases hi with (rfl | rfl) <;> exact ⟨_, rfl⟩)
    | exact ⟨_, hi⟩

/-- The destructor's slot loop creates nothing and touches no buffers. -/
theorem slotEvents_other_measures (r : VDR) :
    viewCreates (destructorSlotEvents r) = 0 ∧
    bufferCreates (destructorSlotEvents r) = 0 ∧
    bufferDestroys (destructorSlotEvents r) = 0 ∧
    memoryCreates (destructorSlotEvents r) = 0 ∧
    memoryDestroys (destructorSlotEvents r) = 0 := by
  have hz := mem_slotEvents r
  refine ⟨?_, ?_, ?_, ?_, ?_⟩
  · simp only [viewCreates, viewCreatesList]
    rw [List.filterMap_eq_nil.mpr (fun e he => by obtain ⟨h, rfl⟩ := hz e he; rfl)]
    rfl
  · simp only [bufferCreates, bufferCreatesList]
    rw [List.filterMap_eq_nil.mpr (fun e he => by obtain ⟨h, rfl⟩ := hz e he; rfl)]
    rfl
  · simp only [bufferDestroys, bufferDestroysList]
    rw [List.filterMap_eq_nil.mpr (fun e he => by obtain ⟨h, rfl⟩ := hz e he; rfl)]
    rfl
  · simp only [memoryCreates, memoryCreatesList]
    rw [List.filterMap_eq_nil.mpr (fun e he => by obtain ⟨h, rfl⟩ := hz e he; rfl)]
    rfl
  · simp only [memoryDestroys, memoryDestroysList]
    rw [List.filterMap_eq_nil.mpr (fun e he => by obtain ⟨h, rfl⟩ := hz e he; rfl)]
    rfl

/-- Device log of `CleanPipeline`. -/
theorem CP_log (r : VDR) (d : Device) (e : CardboardEye) :
    (CleanPipeline r d e).2.log
      = d.log ++ (match r.graphics_pipeline_.get e with
          | some p => [DeviceEvent.destroyPipeline p.handle]
          | none => []) := by
  unfold CleanPipeline
  split <;> simp_all [Device.emit]

@[simp] theorem CP1_index_buffers (r : VDR) (d : Device) (e : CardboardEye) :
    (CleanPipeline r d e).1.index_buffers_ = r.index_buffers_ := by
  rw [CleanPipeline_fst]

@[simp] theorem CP1_vertex_buffers (r : VDR) (d : Device) (e : CardboardEye) :
    (CleanPipeline r d e).1.vertex_buffers_ = r.vertex_buffers_ := by
  rw [CleanPipeline_fst]

@[simp] theorem CP1_uniform_buffers (r : VDR) (d : Device) (e : CardboardEye) :
    (CleanPipeline r d e).1.uniform_buffers_ = r.uniform_buffers_ := by
  rw [CleanPipeline_fst]

/-- `CleanPipeline` on one eye leaves the other eye's pipeline readable. -/
theorem CP1_gp_other (r : VDR) (d : Device) (e : CardboardEye) :
    (CleanPipeline r d e).1.graphics_pipeline_.get e.other
      = r.graphics_pipeline_.get e.other := by
  unfold CleanPipeline
  split <;> cases e <;> simp [EyePair.set, EyePair.get, CardboardEye.other]

/-- The buffer/memory destruction events of one optional pair. -/
def pairEvents : Option (Handle × Handle) → List DeviceEvent
  | some (b, m) => [DeviceEvent.destroyBuffer b, DeviceEvent.freeMemory m]
  | none => [DeviceEvent.destroyBufferIndet, DeviceEvent.freeMemoryIndet]

/-- Log shape of `destroyOptBufferPair`. -/
theorem dobp_log (d : Device) (o : Option (Handle × Handle)) :
    (destroyOptBufferPair d o).log = d.log ++ pairEvents o := by
  rcases o with _ | ⟨b, m⟩ <;> simp [destroyOptBufferPair, pairEvents, Device.emit]

/-- The pipeline destruction events of the destructor. -/
def cpEvents (r : VDR) : List DeviceEvent :=
  (match r.graphics_pipeline_.get .kLeft with
   | some p => [DeviceEvent.destroyPipeline p.handle]
   | none => []) ++
  (match r.graphics_pipeline_.get .kRight with
   | some p => [DeviceEvent.destroyPipeline p.handle]
   | none => [])

/-- The buffer/memory destruction events of the destructor, in source
order: index pairs, vertex pairs, then the two uniform pairs. -/
def destructorBufferEvents (r : VDR) : List DeviceEvent :=
  pairEvents ((r.index_buffers_.get .kLeft).map fun ib => (ib.buffer, ib.memory)) ++
  pairEvents ((r.index_buffers_.get .kRight).map fun ib => (ib.buffer, ib.memory)) ++
  pairEvents ((r.vertex_buffers_.get .kLeft).map fun vb => (vb.buffer, vb.memory)) ++
  pairEvents ((r.vertex_buffers_.get .kRight).map fun vb => (vb.buffer, vb.memory)) ++
  pairEvents (some ((r.uniform_buffers_.get .kLeft).buffer,
                    (r.uniform_buffers_.get .kLeft).memory)) ++
  pairEvents (some ((r.uniform_buffers_.get .kRight).buffer,
                    (r.uniform_buffers_.get .kRight).memory))

/-- Full log decomposition of the destructor. -/
theorem destruct_log (r : VDR) (d : Device) :
    (destructRenderer r d).log
      = d.log ++ destructorSlotEvents r
        ++ [DeviceEvent.destroySampler r.texture_sampler_,
            DeviceEvent.destroyPipelineLayout r.pipeline_layout_,
            DeviceEvent.destroyDescriptorSetLayout r.descriptor_set_layout_,
            DeviceEvent.destroyDescriptorPool (r.descriptor_pool_.get .kLeft),
            DeviceEvent.destroyDescriptorPool (r.descriptor_pool_.get .kRight)]
        ++ cpEvents r
        ++ destructorBufferEvents r := by
  unfold destructRenderer
  dsimp only
  rw [dobp_log, dobp_log, dobp_log, dobp_log, dobp_log, dobp_log]
  rw [CP1_index_buffers, CP1_index_buffers, CP1_vertex_buffers, CP1_vertex_buffers,
    CP1_uniform_buffers, CP1_uniform_buffers]
  rw [CP_log]
  rw [show (CleanPipeline r
      ((((((Device.emit { d with log := d.log ++ destructorSlotEvents r }
        (DeviceEvent.destroySampler r.texture_sampler_)).emit
        (DeviceEvent.destroyPipelineLayout r.pipeline_layout_)).emit
        (DeviceEvent.destroyDescriptorSetLayout r.descriptor_set_layout_)).emit
        (DeviceEvent.destroyDescriptorPool (r.descriptor_pool_.get .kLeft))).emit
        (DeviceEvent.destroyDescriptorPool (r.descriptor_pool_.get .kRight))))
      CardboardEye.kLeft).1.graphics_pipeline_.get CardboardEye.kRight
      = r.graphics_pipeline_.get CardboardEye.kRight from CP1_gp_other r _ .kLeft]
  rw [CP_log]
  simp [Device.emit, cpEvents, destructorBufferEvents, List.append_assoc]

/-- The five fixed middle destructor events carry no view/buffer/memory
creations or destructions. -/
theorem mid5_measures (s p dl q1 q2 : Handle) :
    viewCreates [DeviceEvent.destroySampler s, DeviceEvent.destroyPipelineLayout p,
        DeviceEvent.destroyDescriptorSetLayout dl, DeviceEvent.destroyDescriptorPool q1,
        DeviceEvent.destroyDescriptorPool q2] = 0 ∧
    viewDestroys [DeviceEvent.destroySampler s, DeviceEvent.destroyPipelineLayout p,
        DeviceEvent.destroyDescriptorSetLayout dl, DeviceEvent.destroyDescriptorPool q1,
        DeviceEvent.destroyDescriptorPool q2] = 0 ∧
    bufferCreates [DeviceEvent.destroySampler s, DeviceEvent.destroyPipelineLayout p,
        DeviceEvent.destroyDescriptorSetLayout dl, DeviceEvent.destroyDescriptorPool q1,
        DeviceEvent.destroyDescriptorPool q2] = 0 ∧
    bufferDestroys [DeviceEvent.destroySampler s, DeviceEvent.destroyPipelineLayout p,
        DeviceEvent.destroyDescriptorSetLayout dl, DeviceEvent.destroyDescriptorPool q1,
        DeviceEvent.destroyDescriptorPool q2] = 0 ∧
    memoryCreates [DeviceEvent.destroySampler s, DeviceEvent.destroyPipelineLayout p,
        DeviceEvent.destroyDescriptorSetLayout dl, DeviceEvent.destroyDescriptorPool q1,
        DeviceEvent.destroyDescriptorPool q2] = 0 ∧
    memoryDestroys [DeviceEvent.destroySampler s, DeviceEvent.destroyPipelineLayout p,
        DeviceEvent.destroyDescriptorSetLayout dl, DeviceEvent.destroyDescriptorPool q1,
        DeviceEvent.destroyDescriptorPool q2] = 0 :=
  ⟨rfl, rfl, rfl, rfl, rfl, rfl⟩

/-- Pipeline destruction events carry no view/buffer/memory measures. -/
theorem cpEvents_measures (r : VDR) :
    viewCreates (cpEvents r) = 0 ∧ viewDestroys (cpEvents r) = 0 ∧
    bufferCreates (cpEvents r) = 0 ∧ bufferDestroys (cpEvents r) = 0 ∧
    memoryCreates (cpEvents r) = 0 ∧ memoryDestroys (cpEvents r) = 0 := by
  unfold cpEvents
  rcases r.graphics_pipeline_.get .kLeft with _ | p <;>
    rcases r.graphics_pipeline_.get .kRight with _ | q <;>
    exact ⟨rfl, rfl, rfl, rfl, rfl, rfl⟩

/-- Measures of one optional buffer/memory pair destruction. -/
theorem pairEvents_measures (o : Option (Handle × Handle)) :
    viewCreates (pairEvents o) = 0 ∧ viewDestroys (pairEvents o) = 0 ∧
    bufferCreates (pairEvents o) = 0 ∧ memoryCreates (pairEvents o) = 0 ∧
    bufferDestroys (pairEvents o) = ↑((o.map Prod.fst).toList) ∧
    memoryDestroys (pairEvents o) = ↑((o.map Prod.snd).toList) := by
  rcases o with _ | ⟨b, m⟩ <;> exact ⟨rfl, rfl, rfl, rfl, rfl, rfl⟩

/-- The destructor's buffer events destroy exactly the live buffers. -/
theorem dbe_bufferDestroys (r : VDR) :
    bufferDestroys (destructorBufferEvents r) = liveBuffers r := by
  unfold destructorBufferEvents liveBuffers
  simp only [bufferDestroys_append, (pairEvents_measures _).2.2.2.2.1,
    Option.map_map, optHandle]
  rcases r.index_buffers_.get .kLeft with _ | il <;>
    rcases r.index_buffers_.get .kRight with _ | ir <;>
    rcases r.vertex_buffers_.get .kLeft with _ | vl <;>
    rcases r.vertex_buffers_.get .kRight with _ | vr <;>
    simp [Function.comp_def, Multiset.insert_eq_cons, ← Multiset.singleton_add,
      ← Multiset.coe_add, ← Multiset.cons_coe] <;> abel

/-- The destructor's buffer events free exactly the live memories. -/
theorem dbe_memoryDestroys (r : VDR) :
    memoryDestroys (destructorBufferEvents r) = liveMemories r := by
  unfold destructorBufferEvents liveMemories
  simp only [memoryDestroys_append, (pairEvents_measures _).2.2.2.2.2,
    Option.map_map, optHandle]
  rcases r.index_buffers_.get .kLeft with _ | il <;>
    rcases r.index_buffers_.get .kRight with _ | ir <;>
    rcases r.vertex_buffers_.get .kLeft with _ | vl <;>
    rcases r.vertex_buffers_.get .kRight with _ | vr <;>
    simp [Function.comp_def, Multiset.insert_eq_cons, ← Multiset.singleton_add,
      ← Multiset.coe_add, ← Multiset.cons_coe] <;> abel

/-- The destructor's buffer events make no other measures. -/
theorem dbe_zero_measures (r : VDR) :
    viewCreates (destructorBufferEvents r) = 0 ∧
    viewDestroys (destructorBufferEvents r) = 0 ∧
    bufferCreates (destructorBufferEvents r) = 0 ∧
    memoryCreates (destructorBufferEvents r) = 0 := by
  unfold destructorBufferEvents
  refine ⟨?_, ?_, ?_, ?_⟩ <;>
    simp [viewCreates_append, viewDestroys_append, bufferCreates_append,
      memoryCreates_append, (pairEvents_measures _).1, (pairEvents_measures _).2.1,
      (pairEvents_measures _).2.2.1, (pairEvents_measures _).2.2.2.1]

/-- Given the resource invariant, the destructor balances every measure:
after it runs, created = destroyed for views, buffers and memories. -/
theorem destruct_balanced (r : VDR) (d : Device) (hInv : ResInv r d) :
    viewCreates (destructRenderer r d).log = viewDestroys (destructRenderer r d).log ∧
    bufferCreates (destructRenderer r d).log = bufferDestroys (destructRenderer r d).log ∧
    memoryCreates (destructRenderer r d).log = memoryDestroys (destructRenderer r d).log := by
  rw [destruct_log]
  have hSlotV := viewDestroys_slotEvents r hInv.ivl_len hInv.ivr_len hInv.sv_len
  have hSlotZ := slotEvents_other_measures r
  have hMid := mid5_measures r.texture_sampler_ r.pipeline_layout_
    r.descriptor_set_layout_ (r.descriptor_pool_.get .kLeft) (r.descriptor_pool_.get .kRight)
  have hCp := cpEvents_measures r
  have hDbeZ := dbe_zero_measures r
  refine ⟨?_, ?_, ?_⟩
  · rw [viewCreates_append, viewCreates_append, viewCreates_append, viewCreates_append,
      viewDestroys_append, viewDestroys_append, viewDestroys_append, viewDestroys_append,
      hSlotV, hSlotZ.1, hMid.1, hMid.2.1, hCp.1, hCp.2.1, hDbeZ.1, hDbeZ.2.1, hInv.views]
    abel
  · rw [bufferCreates_append, bufferCreates_append, bufferCreates_append,
      bufferCreates_append, bufferDestroys_append, bufferDestroys_append,
      bufferDestroys_append, bufferDestroys_append,
      hSlotZ.2.1, hSlotZ.2.2.1, hMid.2.2.1, hMid.2.2.2.1, hCp.2.2.1, hCp.2.2.2.1,
      hDbeZ.2.2.1, dbe_bufferDestroys, hInv.bufs]
    abel
  · rw [memoryCreates_append, memoryCreates_append, memoryCreates_append,
      memoryCreates_append, memoryDestroys_append, memoryDestroys_append,
      memoryDestroys_append, memoryDestroys_append,
      hSlotZ.2.2.2.1, hSlotZ.2.2.2.2, hMid.2.2.2.2.1, hMid.2.2.2.2.2,
      hCp.2.2.2.2.1, hCp.2.2.2.2.2, hDbeZ.2.2.2, dbe_memoryDestroys, hInv.mems]
    abel

/-- Device log of a full renderer lifecycle: construct over an `n`-image
swapchain starting at handle `h0`, set one mesh for each eye, render any
number of frames, then run the destructor. -/
def lifecycleLog (n h0 : Nat) (ml mr : CardboardMesh)
    (fs : List FrameInput) : List DeviceEvent :=
  let s0 := constructRenderer n ⟨h0, []⟩
  let s1 := SetMesh s0.1 s0.2 ml .kLeft
  let s2 := SetMesh s1.1 s1.2 mr .kRight
  let s3 := runFrames s2 fs
  (destructRenderer s3.1 s3.2).log

/-- A lifecycle in which `SetMesh` replaces the left eye's existing mesh:
construct over a one-image swapchain, set `mesh0`, replace it with
`mesh1`, then destruct. -/
def leakState : VDR × Device :=
  let s0 := constructRenderer 1 ⟨0, []⟩
  let s1 := SetMesh s0.1 s0.2 mesh0 .kLeft
  SetMesh s1.1 s1.2 mesh1 .kLeft

/-- Full device log of that replacement lifecycle. -/
def leakLog : List DeviceEvent := (destructRenderer leakState.1 leakState.2).log

/-- C5 counterexample: when `SetMesh` replaces an eye's existing buffers,
the old buffer+memory pairs are NOT destroyed — even after the destructor
runs, more buffers were created than destroyed, so a buffer/memory pair
is leaked and the claimed no-leak property fails. -/
theorem setMesh_replacement_leaks :
    ¬ bufferCreates leakLog = bufferDestroys leakLog := by
  intro h
  have hc := congrArg Multiset.card h
  rw [bufferCreates, bufferDestroys, Multiset.coe_card, Multiset.coe_card] at hc
  exact absurd hc (by decide)

/-- Number of destroy/free calls issued with an indeterminate
(never-assigned) handle argument in a device log. -/
def indetCount (log : List DeviceEvent) : Nat :=
  (log.filterMap fun e => match e with
    | .destroyBufferIndet => some ()
    | .freeMemoryIndet => some ()
    | _ => none).length

theorem indet_append (l1 l2 : List DeviceEvent) :
    indetCount (l1 ++ l2) = indetCount l1 + indetCount l2 := by
  simp [indetCount, List.filterMap_append]

/-- A log without the two indeterminate-argument events counts zero. -/
theorem indet_eq_zero (l : List DeviceEvent)
    (h : ∀ e ∈ l, e ≠ DeviceEvent.destroyBufferIndet ∧ e ≠ DeviceEvent.freeMemoryIndet) :
    indetCount l = 0 := by
  rw [indetCount, List.length_eq_zero]
  refine List.filterMap_eq_nil.mpr (fun e he => ?_)
  obtain ⟨h1, h2⟩ := h e he
  cases e <;> first
    | rfl
    | exact absurd rfl h1
    | exact absurd rfl h2

/-- The constructor log contains no indeterminate-argument destroys. -/
theorem indet_construct (n h0 : Nat) :
    indetCount (constructRenderer n ⟨h0, []⟩).2.log = 0 := by
  apply indet_eq_zero
  intro e he
  rw [construct_spec] at he
  constructor <;> rintro rfl <;> simp at he

/-- `SetMesh` emits no indeterminate-argument destroys. -/
theorem indet_SetMesh (r : VDR) (d : Device) (mesh : CardboardMesh) (e : CardboardEye) :
    indetCount (SetMesh r d mesh e).2.log = indetCount d.log := by
  have hlog := congrArg Device.log (SetMesh_shape r d mesh e).1
  dsimp only at hlog
  rw [hlog, indet_append]
  have hz : indetCount [DeviceEvent.createBuffer d.next_handle,
      .allocateMemory (d.next_handle + 1), .createBuffer (d.next_handle + 2),
      .allocateMemory (d.next_handle + 3)] = 0 := rfl
  omega

/-- A pipeline build emits no indeterminate-argument destroys. -/
theorem indet_CGP (r : VDR) (d : Device) (e : CardboardEye) :
    indetCount (CreateGraphicsPipeline r d e).2.log = indetCount d.log := by
  unfold CreateGraphicsPipeline CleanPipeline
  dsimp only
  split <;> simp [Device.fresh, Device.emit, indetCount, List.filterMap_append]

/-- An eye draw emits no indeterminate-argument destroys. -/
theorem indet_RDM (r : VDR) (d : Device) (desc : CardboardEyeTextureDescription)
    (eye : CardboardEye) (idx : Nat) :
    indetCount (RenderDistortionMesh r d desc eye idx).2.1.log = indetCount d.log := by
  rcases hv : (r.image_views_.get eye).getD idx none with _ | o
  · rw [(RDM_dev_none r d desc eye idx hv).1]
    dsimp only
    rw [indet_append]
    have hz : indetCount [DeviceEvent.createImageView d.next_handle] = 0 := rfl
    omega
  · rw [(RDM_dev_some r d desc eye idx o hv).1]
    dsimp only
    rw [indet_append]
    have hz : indetCount [DeviceEvent.destroyImageView o,
        DeviceEvent.createImageView d.next_handle] = 0 := rfl
    omega

/-- A frame emits no indeterminate-argument destroys. -/
theorem indet_RETD (r : VDR) (d : Device)
    (target : CardboardVulkanDistortionRendererTarget) (x y w h : Int)
    (l rgt : CardboardEyeTextureDescription) :
    indetCount (RenderEyeToDisplay r d target x y w h l rgt).2.1.log
      = indetCount d.log := by
  unfold RenderEyeToDisplay
  dsimp only
  split
  · rfl
  · split
    · rw [indet_RDM, indet_RDM, indet_CGP, indet_CGP]
    · rw [indet_RDM, indet_RDM]

/-- A frame sequence emits no indeterminate-argument destroys. -/
theorem indet_runFrames (fs : List FrameInput) :
    ∀ s : VDR × Device, indetCount (runFrames s fs).2.log = indetCount s.2.log := by
  induction fs with
  | nil => intro s; rfl
  | cons f t ih =>
      intro s
      obtain ⟨r, d⟩ := s
      exact (ih ((RenderEyeToDisplay r d f.target f.x f.y f.width f.height
          f.left_eye f.right_eye).1,
        (RenderEyeToDisplay r d f.target f.x f.y f.width f.height
          f.left_eye f.right_eye).2.1)).trans
        (indet_RETD r d f.target f.x f.y f.width f.height f.left_eye f.right_eye)

/-- `RenderEyeToDisplay` never touches the mesh buffers. -/
theorem RETD_buffers (r : VDR) (d : Device)
    (target : CardboardVulkanDistortionRendererTarget) (x y w h : Int)
    (l rgt : CardboardEyeTextureDescription) :
    (RenderEyeToDisplay r d target x y w h l rgt).1.vertex_buffers_ = r.vertex_buffers_ ∧
    (RenderEyeToDisplay r d target x y w h l rgt).1.index_buffers_ = r.index_buffers_ := by
  unfold RenderEyeToDisplay
  dsimp only
  split
  · exact ⟨rfl, rfl⟩
  · split <;> exact ⟨by simp, by simp⟩

/-- A frame sequence never touches the mesh buffers. -/
theorem runFrames_buffers (fs : List FrameInput) :
    ∀ s : VDR × Device,
      (runFrames s fs).1.vertex_buffers_ = s.1.vertex_buffers_ ∧
      (runFrames s fs).1.index_buffers_ = s.1.index_buffers_ := by
  induction fs with
  | nil => intro s; exact ⟨rfl, rfl⟩
  | cons f t ih =>
      intro s
      obtain ⟨r, d⟩ := s
      have hstep := RETD_buffers r d f.target f.x f.y f.width f.height
        f.left_eye f.right_eye
      have hrest := ih ((RenderEyeToDisplay r d f.target f.x f.y f.width f.height
          f.left_eye f.right_eye).1,
        (RenderEyeToDisplay r d f.target f.x f.y f.width f.height
          f.left_eye f.right_eye).2.1)
      exact ⟨hrest.1.trans hstep.1, hrest.2.trans hstep.2⟩

/-- When both eyes' vertex and index buffers were assigned, the destructor
issues no destroy/free call with an indeterminate argument. -/
theorem indet_destruct (r : VDR) (d : Device)
    (h1 : (r.index_buffers_.get .kLeft).isSome = true)
    (h2 : (r.index_buffers_.get .kRight).isSome = true)
    (h3 : (r.vertex_buffers_.get .kLeft).isSome = true)
    (h4 : (r.vertex_buffers_.get .kRight).isSome = true) :
    indetCount (destructRenderer r d).log = indetCount d.log := by
  rw [destruct_log, indet_append, indet_append, indet_append, indet_append]
  have hslot : indetCount (destructorSlotEvents r) = 0 := by
    apply indet_eq_zero
    intro e he
    obtain ⟨v, rfl⟩ := mem_slotEvents r e he
    refine ⟨?_, ?_⟩ <;> intro hc <;> cases hc
  have hmid : indetCount [DeviceEvent.destroySampler r.texture_sampler_,
      DeviceEvent.destroyPipelineLayout r.pipeline_layout_,
      DeviceEvent.destroyDescriptorSetLayout r.descriptor_set_layout_,
      DeviceEvent.destroyDescriptorPool (r.descriptor_pool_.get .kLeft),
      DeviceEvent.destroyDescriptorPool (r.descriptor_pool_.get .kRight)] = 0 := rfl
  have hcp : indetCount (cpEvents r) = 0 := by
    unfold cpEvents
    rcases r.graphics_pipeline_.get .kLeft with _ | p <;>
      rcases r.graphics_pipeline_.get .kRight with _ | q <;> rfl
  have hdbe : indetCount (destructorBufferEvents r) = 0 := by
    rw [Option.isSome_iff_exists] at h1 h2 h3 h4
    obtain ⟨il, hil⟩ := h1
    obtain ⟨ir, hir⟩ := h2
    obtain ⟨vl, hvl⟩ := h3
    obtain ⟨vr, hvr⟩ := h4
    unfold destructorBufferEvents
    rw [hil, hir, hvl, hvr]
    rfl
  omega

/-- A renderer that never received a mesh still has its buffer members
destroyed by the destructor: over a one-image swapchain the destructor
issues exactly eight destroy/free calls whose argument is an
uninitialized member (index and vertex pairs of both eyes). -/
def noMeshDestructLog : List DeviceEvent :=
  (destructRenderer (constructRenderer 1 ⟨0, []⟩).1
    (constructRenderer 1 ⟨0, []⟩).2).log

/-- C5 (amended): `SetMesh` never destroys the buffers it replaces — a
second `SetMesh` on the same eye leaks the old vertex/index buffer and
memory pairs (see the leak counterexample) — and the destructor destroys
the per-eye buffer members unconditionally, so an eye that never received
a mesh gets destroy/free calls with an uninitialized argument (eight such
calls for a renderer destroyed without any `SetMesh`). What does hold:
`SetMesh` emits no buffer destruction or memory free at all, and for a
lifecycle in which each eye receives exactly one mesh — construction, one
`SetMesh` per eye, any number of `RenderEyeToDisplay` frames, then
destruction — the device log is fully balanced as multisets (image views
created = destroyed, buffers created = destroyed, memory allocated =
freed, so every handle is released exactly once) and contains no
destroy/free call with an indeterminate argument. -/
theorem setMesh_no_destroy_and_lifecycle_balanced :
    (∀ (r : VDR) (d : Device) (mesh : CardboardMesh) (e : CardboardEye),
        bufferDestroys (SetMesh r d mesh e).2.log = bufferDestroys d.log ∧
        memoryDestroys (SetMesh r d mesh e).2.log = memoryDestroys d.log) ∧
    (∀ (n h0 : Nat) (ml mr : CardboardMesh) (fs : List FrameInput),
        viewCreates (lifecycleLog n h0 ml mr fs)
          = viewDestroys (lifecycleLog n h0 ml mr fs) ∧
        bufferCreates (lifecycleLog n h0 ml mr fs)
          = bufferDestroys (lifecycleLog n h0 ml mr fs) ∧
        memoryCreates (lifecycleLog n h0 ml mr fs)
          = memoryDestroys (lifecycleLog n h0 ml mr fs) ∧
        indetCount (lifecycleLog n h0 ml mr fs) = 0) ∧
    indetCount noMeshDestructLog = 8 := by
  refine ⟨?_, ?_, by decide⟩
  · intro r d mesh e
    obtain ⟨hdev, _⟩ := SetMesh_shape r d mesh e
    have hlog := congrArg Device.log hdev
    dsimp only at hlog
    rw [hlog, bufferDestroys_append, memoryDestroys_append]
    constructor
    · simp [bufferDestroys, bufferDestroysList]
    · simp [memoryDestroys, memoryDestroysList]
  · intro n h0 ml mr fs
    set s0 := constructRenderer n ⟨h0, []⟩ with hs0
    set s1 := SetMesh s0.1 s0.2 ml .kLeft with hs1
    set s2 := SetMesh s1.1 s1.2 mr .kRight with hs2
    set s3 := runFrames s2 fs with hs3
    have h0inv : ResInv s0.1 s0.2 := ResInv_construct n h0
    have h1inv : ResInv s1.1 s1.2 :=
      ResInv_SetMesh_fresh s0.1 s0.2 ml .kLeft h0inv rfl rfl
    have hv1r : s1.1.vertex_buffers_.get .kRight = none := by
      rw [hs1, (SetMesh_shape s0.1 s0.2 ml .kLeft).2.1]
      rfl
    have hi1r : s1.1.index_buffers_.get .kRight = none := by
      rw [hs1, (SetMesh_shape s0.1 s0.2 ml .kLeft).2.2.1]
      rfl
    have h2inv : ResInv s2.1 s2.2 :=
      ResInv_SetMesh_fresh s1.1 s1.2 mr .kRight h1inv hv1r hi1r
    have hvL : (s2.1.vertex_buffers_.get .kLeft).isSome = true := by
      rw [hs2, (SetMesh_shape s1.1 s1.2 mr .kRight).2.1, hs1,
        (SetMesh_shape s0.1 s0.2 ml .kLeft).2.1]
      rfl
    have hvR : (s2.1.vertex_buffers_.get .kRight).isSome = true := by
      rw [hs2, (SetMesh_shape s1.1 s1.2 mr .kRight).2.1, EyePair.get_set_same]
      rfl
    have hiL : (s2.1.index_buffers_.get .kLeft).isSome = true := by
      rw [hs2, (SetMesh_shape s1.1 s1.2 mr .kRight).2.2.1, hs1,
        (SetMesh_shape s0.1 s0.2 ml .kLeft).2.2.1]
      rfl
    have hiR : (s2.1.index_buffers_.get .kRight).isSome = true := by
      rw [hs2, (SetMesh_shape s1.1 s1.2 mr .kRight).2.2.1, EyePair.get_set_same]
      rfl
    have h3inv : ResInv s3.1 s3.2 := ResInv_runFrames fs s2 h2inv
    have hfb := runFrames_buffers fs s2
    have hvL3 : (s3.1.vertex_buffers_.get .kLeft).isSome = true := by
      rw [hs3, hfb.1]
      exact hvL
    have hvR3 : (s3.1.vertex_buffers_.get .kRight).isSome = true := by
      rw [hs3, hfb.1]
      exact hvR
    have hiL3 : (s3.1.index_buffers_.get .kLeft).isSome = true := by
      rw [hs3, hfb.2]
      exact hiL
    have hiR3 : (s3.1.index_buffers_.get .kRight).isSome = true := by
      rw [hs3, hfb.2]
      exact hiR
    have hbal := destruct_balanced s3.1 s3.2 h3inv
    have hind := indet_destruct s3.1 s3.2 hiL3 hiR3 hvL3 hvR3
    have hpre : indetCount s3.2.log = 0 := by
      rw [hs3, indet_runFrames fs s2, hs2, indet_SetMesh, hs1, indet_SetMesh, hs0,
        indet_construct]
    have hrw : lifecycleLog n h0 ml mr fs = (destructRenderer s3.1 s3.2).log := rfl
    rw [hrw]
    exact ⟨hbal.1, hbal.2.1, hbal.2.2, by rw [hind]; exact hpre⟩
